import Mathlib

/-!
Verification development for the UPI fraud-defense backend.

Shallow embedding of the risk-scoring pipeline: the identifier extractor
(messageExtractor), the scam text classifier (scamDetector + otpFraudDetector),
the transaction analyzer (upiTransactionAnalyzer, source reproduced in
DEPLOYMENT.md), the QR analyzer (qrAnalyzerService), the fusion functions
(mlFraudService, mergeRiskResults), the chat orchestrator
(autoDefenseController), the standalone honeypot engine (routes/honeypot +
sessionManager) and the validate-transaction route (routes/upifraud).

JavaScript numbers are modelled as rationals (ℚ); `Math.round` is the
round-half-up `round` on ℚ, which agrees with JS on all inputs.  External
collaborators (the LLM, the ML probability service, the database) are modelled
as explicit `Option`-valued inputs: `none` means the collaborator is absent or
failed, exactly the shape the JS code receives.
-/

namespace UpiFraud

/-! ### Character and string helpers (ASCII semantics of the JS string ops) -/

def asciiLower (c : Char) : Char :=
  if 'A' ≤ c ∧ c ≤ 'Z' then Char.ofNat (c.toNat + 32) else c

def lowerL (l : List Char) : List Char := l.map asciiLower

def lowerS (s : String) : String := String.mk (lowerL s.toList)

/-- JS `\s` (whitespace), restricted to the ASCII whitespace that occurs here. -/
def isWsB (c : Char) : Bool :=
  c == ' ' || c == '\t' || c == '\n' || c == '\r'

/-- `trim` on a character list (drop whitespace at both ends). -/
def trimL (l : List Char) : List Char :=
  ((l.dropWhile isWsB).reverse.dropWhile isWsB).reverse

/-- JS `String.prototype.trim` over the ASCII whitespace used here. -/
def jsTrim (s : String) : String := String.mk (trimL s.toList)

/-- `s.slice(0, n)` / `String.take`. -/
def sTake (s : String) (n : ℕ) : String := String.mk (s.toList.take n)

/-- `s.startsWith(pre)`. -/
def startsWithS (s pre : String) : Bool := pre.toList.isPrefixOf s.toList

def isDigitB (c : Char) : Bool := '0' ≤ c && c ≤ '9'

def isAlphaB (c : Char) : Bool :=
  ('a' ≤ c && c ≤ 'z') || ('A' ≤ c && c ≤ 'Z')

def isAlnumB (c : Char) : Bool := isAlphaB c || isDigitB c

/-- JS word character (`\w`): letters, digits, underscore. -/
def isWordB (c : Char) : Bool := isAlnumB c || c == '_'

/-- Boolean infix test: `pat` occurs contiguously inside `hay`. -/
def isInfixB (pat : List Char) : List Char → Bool
  | [] => pat.isEmpty
  | c :: t => pat.isPrefixOf (c :: t) || isInfixB pat t

/-- Case-insensitive `includes` on char lists. -/
def containsSubCi (hay pat : List Char) : Bool :=
  isInfixB (lowerL pat) (lowerL hay)

/-- `String.includes` (case-sensitive). -/
def containsSub (hay pat : List Char) : Bool := isInfixB pat hay

/-- `lowerText.includes(pattern)` for strings. -/
def strIncludes (hay pat : String) : Bool := containsSub hay.toList pat.toList

def firstSome {α : Type} : List (Option α) → Option α
  | [] => none
  | some a :: _ => some a
  | none :: rest => firstSome rest

/-- Case-sensitive literal prefix; returns the remainder on success. -/
def litPrefix (pat l : List Char) : Option (List Char) :=
  if pat.isPrefixOf l then some (l.drop pat.length) else none

/-- Case-insensitive literal prefix; returns the remainder on success. -/
def litPrefixCi (pat l : List Char) : Option (List Char) :=
  if (lowerL pat).isPrefixOf (lowerL (l.take pat.length)) ∧ pat.length ≤ l.length then
    some (l.drop pat.length)
  else none

/--
Global-regex scanning, the semantics of `String.match(/…/g)` / repeated
`exec`: find the leftmost position where the matcher succeeds, emit its
result, continue after the consumed characters (at least one), otherwise
advance one character.  The matcher `f` is applied to the suffix starting at
the current position and returns the produced value together with the number
of characters the match consumed.
-/
def scanAll {α : Type} (f : List Char → Option (α × Nat)) : List Char → List α
  | [] => []
  | c :: rest =>
    match f (c :: rest) with
    | some (a, k) => a :: scanAll f ((c :: rest).drop (max k 1))
    | none => scanAll f rest
termination_by l => l.length
decreasing_by
  · simp only [List.length_drop, List.length_cons]
    omega
  · simp

/-- First occurrence kept, later duplicates dropped: `[...new Set(xs)]`. -/
def dedup {α : Type} [BEq α] (l : List α) : List α := l.eraseDups

/-! ### otpFraudDetector.js -/

def OTP_REQUEST_PHRASES : List String :=
  ["share otp", "share your otp", "tell me otp", "tell me your otp",
   "send otp", "send your otp", "verification code", "one time password",
   "resend code", "confirm otp", "confirm your otp", "enter otp",
   "enter your otp", "type otp", "provide otp", "give otp",
   "share the otp", "send the otp", "what is your otp",
   "share verification code", "send verification code"]

def URGENCY_WORDS : List String :=
  ["urgent", "urgently", "now", "fast", "immediately", "asap",
   "right now", "quick", "quickly"]

def RISK_OTP_ONLY : ℕ := 40
def RISK_OTP_WITH_URGENCY : ℕ := 60

/-- One match of `/\b\d{4,8}\b/` starting at the head of the list: the
previous character was a non-word character (checked by the caller), the
digit run has length 4–8 and is followed by a non-word character. -/
def otpNumericAt (l : List Char) : Option (Unit × Nat) :=
  let ds := l.takeWhile isDigitB
  if 4 ≤ ds.length && ds.length ≤ 8 &&
      (match (l.drop ds.length).head? with
       | none => true
       | some c => !isWordB c) then
    some ((), ds.length)
  else none

/-- All matches of `OTP_NUMERIC_REGEX = /\b\d{4,8}\b/g`, counted.  A `\b`
before the digits means the previous character is a non-word character; the
scanner tracks that with the flag `prevWord`. -/
def countOtpNumeric : List Char → Bool → Nat
  | [], _ => 0
  | c :: rest, prevWord =>
    if ¬ prevWord then
      match otpNumericAt (c :: rest) with
      | some (_, k) => 1 + countOtpNumeric ((c :: rest).drop (max k 1)) true
      | none => countOtpNumeric rest (isWordB c)
    else countOtpNumeric rest (isWordB c)
termination_by l _ => l.length
decreasing_by
  · simp only [List.length_drop, List.length_cons]
    omega
  · simp
  · simp

/-- `/\botp\b/.test(lower)`: an occurrence of "otp" delimited by non-word
characters (or the ends of the string). -/
def hasOtpWord : List Char → Bool → Bool
  | [], _ => false
  | c :: rest, prevWord =>
    if !prevWord && (litPrefix ['o', 't', 'p'] (c :: rest)).isSome &&
        (match ((c :: rest).drop 3).head? with
         | none => true
         | some d => !isWordB d) then
      true
    else hasOtpWord rest (isWordB c)

structure OtpResult where
  riskIncrement : ℕ
  indicators : List String
  deriving Repr, DecidableEq

/-- `detectOtpFraud` from otpFraudDetector.js. -/
def detectOtpFraud (message : String) : OtpResult :=
  let text := jsTrim message
  if text.length = 0 then ⟨0, []⟩
  else
    let lower := lowerS text
    let phraseHit := OTP_REQUEST_PHRASES.find? (fun p => strIncludes lower p)
    let indicators0 :=
      match phraseHit with
      | some p => [s!"OTP request phrase: \x22{p}\x22"]
      | none => []
    let numericCount := countOtpNumeric text.toList false
    let hasOtpNumericHit :=
      phraseHit.isNone ∧ hasOtpWord lower.toList false ∧ numericCount > 0
    let indicators1 :=
      if hasOtpNumericHit then indicators0 ++ ["OTP mentioned with numeric code"]
      else indicators0
    let indicators2 :=
      if numericCount > 0 ∧ ¬ indicators1.any (fun i => strIncludes i "numeric") then
        indicators1 ++ [s!"Possible OTP/code: {numericCount} numeric sequence(s) (4-8 digits)"]
      else indicators1
    let hasOtpRequest := phraseHit.isSome ∨ hasOtpNumericHit
    if ¬ hasOtpRequest then ⟨0, []⟩
    else
      let urgencyHit := URGENCY_WORDS.find? (fun w => strIncludes lower w)
      let indicators3 :=
        match urgencyHit with
        | some w => indicators2 ++ [s!"Urgency language: \x22{w}\x22"]
        | none => indicators2
      ⟨if urgencyHit.isSome then RISK_OTP_WITH_URGENCY else RISK_OTP_ONLY,
       dedup indicators3⟩

/-! ### JS number helpers -/

/-- `Math.round` on a rational: round half away from zero upwards, which is
`⌊x + 1/2⌋`, Mathlib's `round`; this agrees with JS for every input. -/
def jsRound (x : ℚ) : ℤ := round x

/-- `Math.round(x * 100) / 100` — rounding to two decimals. -/
def round2 (x : ℚ) : ℚ := ((jsRound (x * 100) : ℚ)) / 100

/-- `a || b` for JS numbers (`0` is falsy). -/
def jsOrQ (a b : ℚ) : ℚ := if a = 0 then b else a

/-- `a || b` for JS strings (`''` is falsy). -/
def jsOrS (a b : String) : String := if a = "" then b else a

/-- `a?.f || b` where `a?.f` is a nullable string. -/
def jsOrOptS (a : Option String) (b : String) : String :=
  match a with
  | some s => jsOrS s b
  | none => b

/-! ### config.js -/

def scamThreshold : ℚ := 2/5
def sessionTimeoutMs : ℕ := 30 * 60 * 1000
def minMessagesForCallback : ℕ := 3

/-! ### scamDetector.js -/

/-- The weighted category lexicon `scamIndicators`. -/
def scamIndicators : List (String × List String × ℚ) :=
  [("urgency",
    ["urgent", "immediately", "right now", "within 24 hours", "today only",
     "expires", "last chance", "act now", "dont delay", "don't delay"], 2/5),
   ("threats",
    ["blocked", "suspended", "terminated", "legal action", "police", "arrest",
     "fine", "penalty", "frozen", "court", "warrant"], 1/2),
   ("financialRequest",
    ["bank account", "upi", "transfer", "payment", "otp", "pin", "cvv",
     "card number", "account number", "share your", "send money", "deposit"], 1/2),
   ("impersonation",
    ["rbi", "reserve bank", "income tax", "government", "official",
     "customer care", "bank manager", "technical support", "support team"], 2/5),
   ("rewards",
    ["winner", "lottery", "prize", "cashback", "reward", "free gift", "lucky",
     "selected", "congratulations", "won"], 3/10),
   ("verification",
    ["verify", "kyc", "update details", "confirm identity", "link aadhaar",
     "pan card", "re-verify", "update pan"], 3/10),
   ("jobScam",
    ["part-time", "job", "hiring", "recruit", "vacancy", "daily income",
     "earn daily", "work from home", "wfh", "no investment", "telegram",
     "whatsapp", "task based", "youtube likes"], 1/2)]

/-- `calculateRuleBasedScore`: each category counts once (its weight) when any
of its patterns occurs in the lower-cased text; the sum is capped at 1. -/
def calculateRuleBasedScore (text : String) : ℚ × List String :=
  let lower := lowerS text
  let step := scamIndicators.foldl
    (fun (acc : ℚ × List String) cat =>
      if cat.2.1.any (fun p => strIncludes lower p) then
        (acc.1 + cat.2.2, acc.2 ++ [cat.1])
      else acc)
    (0, [])
  (min step.1 1, step.2)

/-- The (normalized) verdict from the optional AI detector `detectWithAI`:
`none` models an unconfigured or failing LLM. -/
structure AiVerdict where
  isScam : Bool
  confidence : ℚ
  scamType : Option String
  indicators : List String
  reasoning : Option String
  deriving Repr, DecidableEq

structure ScamResult where
  isScam : Bool
  confidence : ℚ
  scamType : String
  indicators : List String
  reasoning : String
  ruleBasedScore : ℚ
  aiResult : Bool
  deriving Repr, DecidableEq

/-- Everything `detectScam` computes before the final `return` statement; the
`confidence` field of this record is the pre-rounding `finalConfidence`. -/
structure ScamCore where
  isScam : Bool
  finalConfidence : ℚ
  scamType : String
  indicators : List String
  reasoning : String
  deriving Repr, DecidableEq

/-- Lines 158–201 of scamDetector.js: rule score, AI fusion, OTP boost. -/
def detectScamCore (text : String) (ai : Option AiVerdict) : ScamCore :=
  let ruleBased := calculateRuleBasedScore text
  let otpResult := detectOtpFraud text
  let otpBoost : ℚ :=
    if otpResult.riskIncrement > 0 then (otpResult.riskIncrement : ℚ) / 100 else 0
  let base : ScamCore :=
    { isScam := decide (ruleBased.1 ≥ scamThreshold),
      finalConfidence := ruleBased.1,
      scamType := "unknown",
      indicators := ruleBased.2,
      reasoning :=
        (let cats := String.intercalate ", " ruleBased.2
         s!"Rule-based detection found indicators in categories: {cats}") }
  let afterAi : ScamCore :=
    match ai with
    | none => base
    | some a =>
      if ruleBased.1 > 2/5 ∧ ¬ a.isScam then
        { isScam := true,
          finalConfidence := max ruleBased.1 a.confidence,
          scamType := "suspected scam",
          indicators := dedup (base.indicators ++ a.indicators),
          reasoning :=
            "Rule-based pattern matching flagged this as a potential scam despite AI analysis." }
      else
        let fc := max ruleBased.1 a.confidence
        { isScam := a.isScam || decide (fc ≥ scamThreshold),
          finalConfidence := fc,
          scamType := jsOrOptS a.scamType base.scamType,
          indicators := dedup (base.indicators ++ a.indicators),
          reasoning := jsOrOptS a.reasoning base.reasoning }
  if otpBoost > 0 then
    let fc := min 1 (afterAi.finalConfidence + otpBoost)
    { afterAi with
      isScam := afterAi.isScam || decide (fc ≥ scamThreshold),
      finalConfidence := fc,
      indicators := dedup (afterAi.indicators ++ otpResult.indicators) }
  else afterAi

/-- `detectScam` from scamDetector.js; the returned confidence is the core
confidence rounded to two decimals. -/
def detectScam (text : String) (ai : Option AiVerdict) : ScamResult :=
  let core := detectScamCore text ai
  { isScam := core.isScam,
    confidence := round2 core.finalConfidence,
    scamType := core.scamType,
    indicators := core.indicators,
    reasoning := core.reasoning,
    ruleBasedScore := (calculateRuleBasedScore text).1,
    aiResult := ai.isSome }

/-! ### upiTransactionAnalyzer.js (source reproduced in DEPLOYMENT.md)

Notes on the embedding: the `hour` the analyzer derives from the timestamp (or
the wall clock) is an explicit field of the transaction record; string
apostrophes from the source are transcribed as U+2019; the timing fields
(`transactionId`, `analysisTimeMs`, `timestamp`) are omitted as pure
wall-clock bookkeeping. -/

/-- Truncating division's remainder, the semantics of JS `%`. -/
def ratTrunc (x : ℚ) : ℤ := if 0 ≤ x then ⌊x⌋ else ⌈x⌉

def jsMod (a b : ℚ) : ℚ := a - b * (ratTrunc (a / b) : ℚ)

structure Txn where
  senderUPI : String
  receiverUPI : String
  amount : ℚ
  type : String
  description : String
  isNewPayee : Bool
  source : String
  isRapid : Bool
  hour : ℕ
  deriving Repr, DecidableEq

def SUSPICIOUS_DESC_FLAGS : List String :=
  ["urgent", "immediately", "otp", "kyc", "verify", "blocked", "suspended",
   "lottery", "prize", "winner", "claim", "refund", "cashback", "reward",
   "lucky", "selected", "offer", "fine", "penalty", "police", "arrest",
   "court", "legal"]

/-- `knownScamUPI`: the lower-cased receiver matches `^(\d+)@` with a captured
digit prefix longer than 8. -/
def knownScamUpiCheck (receiver : String) : Bool :=
  let r := (lowerS receiver).toList
  let ds := r.takeWhile isDigitB
  (r.drop ds.length).head? == some '@' && ds.length > 8

def FRAUD_PATTERNS : List (String × (Txn → Bool) × ℕ × String) :=
  [("highAmount", fun t => t.amount > 50000, 15,
    "Unusually high transaction amount"),
   ("veryHighAmount", fun t => t.amount > 200000, 25,
    "Extremely high amount (>₹2,00,000)"),
   ("roundAmount", fun t => t.amount ≥ 1000 && jsMod t.amount 1000 == 0, 5,
    "Round-number amount (common in scams)"),
   ("midnightTransaction", fun t => t.hour < 5, 15,
    "Transaction during unusual hours (midnight-5AM)"),
   ("lateNightTransaction", fun t => t.hour ≥ 22 || t.hour < 6, 8,
    "Late-night transaction"),
   ("newPayee", fun t => t.isNewPayee, 12,
    "First-time payee (new beneficiary)"),
   ("suspiciousDescription",
    fun t => SUSPICIOUS_DESC_FLAGS.any (fun f => strIncludes (lowerS t.description) f), 20,
    "Suspicious keywords in description"),
   ("p2pToMerchant", fun t => t.type == "P2P" && t.amount > 10000, 8,
    "Large P2P transfer (potential mule account)"),
   ("rapidSuccession", fun t => t.isRapid, 18,
    "Rapid successive transactions detected"),
   ("knownScamUPI", fun t => knownScamUpiCheck t.receiverUPI, 10,
    "Receiver UPI ID appears auto-generated or suspicious"),
   ("qrCodeTransaction", fun t => t.source == "QR_SCAN", 10,
    "QR code initiated transaction (verify QR source)")]

structure Category where
  key : String
  name : String
  icon : String
  deriving Repr, DecidableEq

def FRAUD_CATEGORIES : List (Category × List String) :=
  [(⟨"PHISHING", "Phishing Attack", "🎣"⟩,
    ["kyc", "verify", "update", "link", "click", "login", "password"]),
   (⟨"QR_SCAM", "QR Code Scam", "📱"⟩, ["qr", "scan", "receive", "collect"]),
   (⟨"OTP_FRAUD", "OTP Fraud", "🔢"⟩, ["otp", "pin", "code", "share", "tell"]),
   (⟨"VISHING", "Vishing (Voice Phishing)", "📞"⟩,
    ["call", "phone", "customer care", "support", "bank manager"]),
   (⟨"LOTTERY_SCAM", "Lottery/Reward Scam", "🎰"⟩,
    ["lottery", "prize", "winner", "reward", "cashback", "lucky"]),
   (⟨"JOB_SCAM", "Fake Job Scam", "💼"⟩,
    ["job", "hiring", "part-time", "work from home", "daily income", "task"]),
   (⟨"IMPERSONATION", "Impersonation Fraud", "🎭"⟩,
    ["rbi", "government", "police", "court", "income tax", "bank official"]),
   (⟨"REMOTE_ACCESS", "Remote Access Scam", "💻"⟩,
    ["anydesk", "teamviewer", "download", "install", "apk", "app"]),
   (⟨"INVESTMENT_SCAM", "Investment Scam", "📈"⟩,
    ["invest", "return", "profit", "double", "guaranteed", "crypto", "trading"])]

structure Indicator where
  id : String
  label : String
  severity : String
  deriving Repr, DecidableEq

/-- `calculateRuleScore`: sum of matched pattern weights capped at 100,
indicators with severity graded by weight. -/
def calculateRuleScore (txn : Txn) : ℕ × List Indicator :=
  let step := FRAUD_PATTERNS.foldl
    (fun (acc : ℕ × List Indicator) p =>
      if p.2.1 txn then
        (acc.1 + p.2.2.1,
         acc.2 ++ [⟨p.1, p.2.2.2,
                    if p.2.2.1 ≥ 15 then "HIGH"
                    else if p.2.2.1 ≥ 10 then "MEDIUM" else "LOW"⟩])
      else acc)
    (0, [])
  (min step.1 100, step.2)

/-- `detectCategory`: best keyword-overlap category (strictly improving scan
in declaration order), overridden to QR_SCAM for QR-sourced transactions. -/
def detectCategory (txn : Txn) : Option Category :=
  let text := lowerS (txn.description ++ " " ++ txn.senderUPI ++ " " ++
                      txn.receiverUPI ++ " " ++ txn.source)
  let best := FRAUD_CATEGORIES.foldl
    (fun (acc : Option Category × ℕ) c =>
      let matchCount := c.2.countP (fun kw => strIncludes text kw)
      if matchCount > acc.2 then (some c.1, matchCount) else acc)
    (none, 0)
  if txn.source == "QR_SCAN" then
    some ⟨"QR_SCAM", "QR Code Scam", "📱"⟩
  else best.1

inductive RiskLevel where
  | LOW | MEDIUM | HIGH | CRITICAL
  deriving Repr, DecidableEq

structure LevelInfo where
  level : RiskLevel
  color : String
  emoji : String
  deriving Repr, DecidableEq

/-- `getRiskLevel` of upiTransactionAnalyzer.js: bands at 75 / 50 / 25. -/
def getRiskLevel (score : ℚ) : LevelInfo :=
  if score ≥ 75 then ⟨.CRITICAL, "#dc2626", "🚨"⟩
  else if score ≥ 50 then ⟨.HIGH, "#ea580c", "⚠️"⟩
  else if score ≥ 25 then ⟨.MEDIUM, "#d97706", "🔶"⟩
  else ⟨.LOW, "#16a34a", "✅"⟩

/-- `getRecommendedActions` (apostrophes transcribed as U+2019). -/
def getRecommendedActions (riskScore : ℚ) (category : Option Category) : List String :=
  let base :=
    if riskScore ≥ 75 then
      ["🚫 BLOCK this transaction immediately",
       "📞 Call your bank’s fraud helpline",
       "📱 Report to Cyber Crime helpline: 1930",
       "🔒 Change your UPI PIN immediately"]
    else if riskScore ≥ 50 then
      ["⏸️ Hold this transaction and verify the payee",
       "🔍 Double-check the receiver’s identity",
       "📞 Call the person directly to confirm",
       "⚠️ Never share OTP or UPI PIN with anyone"]
    else if riskScore ≥ 25 then
      ["👀 Review transaction details carefully",
       "✅ Verify the receiver is known to you",
       "🔐 Ensure you are on official app (not a link)"]
    else
      ["✅ Transaction appears safe",
       "💡 Always verify before large transfers"]
  let extra :=
    match category with
    | some c =>
      if c.key = "QR_SCAM" then
        ["📱 Never scan QR codes sent by strangers",
         "⚠️ QR codes are for PAYING, not RECEIVING money"]
      else if c.key = "OTP_FRAUD" then
        ["🔒 NEVER share OTP with anyone — banks never ask for it"]
      else if c.key = "PHISHING" then
        ["🔗 Do NOT click suspicious links — use official bank apps only"]
      else if c.key = "VISHING" then
        ["📞 Hang up and call your bank on the number printed on your card"]
      else []
    | none => []
  dedup (base ++ extra)

/-- The (arbitrary, JSON-shaped) verdict of the optional `analyzeWithAI` call. -/
structure AiTxnVerdict where
  riskScore : ℚ
  fraudCategory : Option String
  reasoning : Option String
  indicators : List String
  deriving Repr, DecidableEq

structure NamedCategory where
  name : String
  icon : String
  deriving Repr, DecidableEq

structure Analysis where
  riskScore : ℚ
  riskLevel : RiskLevel
  riskColor : String
  riskEmoji : String
  isHighRisk : Bool
  fraudCategory : Option NamedCategory
  indicators : List Indicator
  recommendedActions : List String
  reasoning : String
  aiAnalysis : Bool
  mlProbability : Option ℚ := none
  deriving Repr, DecidableEq

/-- `analyzeTransaction`: rule score, optional AI max-merge, rounding, cap at
100, level + actions from the final score. -/
def analyzeTransaction (txn : Txn) (aiResult : Option AiTxnVerdict) : Analysis :=
  let ruleResult := calculateRuleScore txn
  let category := detectCategory txn
  let preScore : ℚ :=
    match aiResult with
    | some a => max (ruleResult.1 : ℚ) (jsOrQ a.riskScore 0)
    | none => (ruleResult.1 : ℚ)
  let aiIndicators : List Indicator :=
    match aiResult with
    | some a =>
      (a.indicators.enum.map fun p =>
        ⟨s!"ai_{ruleResult.2.length + p.1}", p.2, "AI"⟩)
    | none => []
  let finalScore : ℚ := (min (jsRound preScore) 100 : ℤ)
  let levelInfo := getRiskLevel finalScore
  let finalCategory : Option Category :=
    match aiResult with
    | some a =>
      match a.fraudCategory with
      | some fc =>
        if fc ≠ "" ∧ fc ≠ "null" then some ⟨"AI_DETECTED", fc, "🤖"⟩ else category
      | none => category
    | none => category
  { riskScore := finalScore,
    riskLevel := levelInfo.level,
    riskColor := levelInfo.color,
    riskEmoji := levelInfo.emoji,
    isHighRisk := decide (finalScore ≥ 50),
    fraudCategory := finalCategory.map (fun c => ⟨c.name, c.icon⟩),
    indicators := ruleResult.2 ++ aiIndicators,
    recommendedActions := getRecommendedActions finalScore finalCategory,
    reasoning :=
      jsOrOptS (aiResult.bind (·.reasoning))
        s!"Rule-based analysis detected {ruleResult.2.length} risk indicator(s).",
    aiAnalysis := aiResult.isSome }

/-! ### qrAnalyzerService.js

`new URL(...)`/`searchParams` are modelled by the query-string fragment the
service actually uses: everything between the first `?` and a following `#`,
split on `&`, each pair split on the first `=`, with `+` and `%XX` decoding.
For a string starting with `upi://pay` this parse never throws, so the
`catch` branch of `parseUpiPaymentUri` is unreachable in the model. -/

def hexVal (c : Char) : Option ℕ :=
  if '0' ≤ c ∧ c ≤ '9' then some (c.toNat - '0'.toNat)
  else if 'a' ≤ c ∧ c ≤ 'f' then some (c.toNat - 'a'.toNat + 10)
  else if 'A' ≤ c ∧ c ≤ 'F' then some (c.toNat - 'A'.toNat + 10)
  else none

/-- `application/x-www-form-urlencoded` decoding: `+` is a space, `%XX` a
byte; a malformed escape is kept verbatim. -/
def formDecode : List Char → List Char
  | [] => []
  | '+' :: rest => ' ' :: formDecode rest
  | '%' :: h1 :: h2 :: rest =>
    match hexVal h1, hexVal h2 with
    | some a, some b => Char.ofNat (16 * a + b) :: formDecode rest
    | _, _ => '%' :: formDecode (h1 :: h2 :: rest)
  | c :: rest => c :: formDecode rest

/-- The query component: after the first `?`, up to a `#`. -/
def queryOf (s : List Char) : List Char :=
  ((s.dropWhile (fun c => !(c == '?'))).drop 1).takeWhile (fun c => !(c == '#'))

/-- `searchParams.get key`: the first pair with the given (decoded) key. -/
def getParam (s : String) (key : String) : Option String :=
  let pairs := (queryOf s.toList).splitOn '&'
  let kvs := pairs.filterMap (fun p =>
    if p.isEmpty then none
    else
      let k := p.takeWhile (fun c => !(c == '='))
      let v := (p.dropWhile (fun c => !(c == '='))).drop 1
      some (String.mk (formDecode k), String.mk (formDecode v)))
  (kvs.find? (fun kv => kv.1 == key)).map (·.2)

structure QrPayload where
  raw : String
  upiId : String
  merchantName : String
  amount : String
  currency : String
  deriving Repr, DecidableEq

/-- `parseUpiPaymentUri`. -/
def parseUpiPaymentUri (raw : String) : Except String QrPayload :=
  if raw = "" then .error "Empty or invalid QR content"
  else
    let trimmed := jsTrim raw
    if ¬ startsWithS (lowerS trimmed) "upi://pay" then
      .error "QR does not contain a UPI payment link (upi://pay)"
    else
      .ok { raw := trimmed,
            upiId := (getParam trimmed "pa").getD "",
            merchantName := (getParam trimmed "pn").getD "",
            amount := (getParam trimmed "am").getD "",
            currency := (getParam trimmed "cu").getD "" }

def SUSPICIOUS_UPI_KEYWORDS : List String :=
  ["support", "help", "refund", "cashback", "prize"]

/-- The fragment of JS `Number(string)` exercised by the QR amounts:
optional sign, digits, optional fractional part; anything else is `NaN`
(`none`). -/
def jsNumber (s : String) : Option ℚ :=
  let t := trimL s.toList
  let (sign, t) : ℚ × List Char :=
    match t with
    | '-' :: rest => (-1, rest)
    | '+' :: rest => (1, rest)
    | _ => (1, t)
  let intPart := t.takeWhile isDigitB
  let t2 := t.drop intPart.length
  let (fracPart, t3) : List Char × List Char :=
    match t2 with
    | '.' :: rest => (rest.takeWhile isDigitB, rest.drop (rest.takeWhile isDigitB).length)
    | _ => ([], t2)
  if t3 ≠ [] ∨ (intPart = [] ∧ fracPart = []) then none
  else
    let iv : ℕ := intPart.foldl (fun a c => a * 10 + (c.toNat - '0'.toNat)) 0
    let fv : ℕ := fracPart.foldl (fun a c => a * 10 + (c.toNat - '0'.toNat)) 0
    some (sign * ((iv : ℚ) + (fv : ℚ) / ((10 : ℚ) ^ fracPart.length)))

/-- `ruleBasedQrRisk`: `amountValue` is `NaN` when the amount string is empty
or unparsable, and every comparison against `NaN` is false. -/
def ruleBasedQrRisk (parsed : QrPayload) : ℕ × List String :=
  let amountValue : Option ℚ := if parsed.amount = "" then none else jsNumber parsed.amount
  let hasAmount := match amountValue with
    | some v => decide (v > 0)
    | none => false
  let highAmount := match amountValue with
    | some v => hasAmount && decide (v > 5000)
    | none => false
  let s1 : ℕ × List String :=
    if highAmount then (40, ["High transaction amount embedded in QR"]) else (0, [])
  let s2 :=
    if SUSPICIOUS_UPI_KEYWORDS.any (fun k => strIncludes (lowerS parsed.upiId) k) then
      (s1.1 + 30, s1.2 ++ ["Suspicious UPI ID pattern"])
    else s1
  let s3 :=
    if parsed.merchantName = "" then
      (s2.1 + 20, s2.2 ++ ["No merchant name provided in QR"])
    else s2
  let s4 :=
    if hasAmount then (s3.1 + 30, s3.2 ++ ["QR is requesting a payment"]) else s3
  (min s4.1 100, s4.2)

/-- `scoreToLevel` of qrAnalyzerService.js — note the strict comparisons. -/
def scoreToLevel (score : ℚ) : LevelInfo :=
  if score > 85 then ⟨.CRITICAL, "#dc2626", "🚨"⟩
  else if score > 70 then ⟨.HIGH, "#ea580c", "⚠️"⟩
  else if score > 40 then ⟨.MEDIUM, "#d97706", "🔶"⟩
  else ⟨.LOW, "#16a34a", "✅"⟩

structure QrExtracted where
  upiId : Option String
  merchantName : Option String
  amount : Option String
  deriving Repr, DecidableEq

structure QrAnalysis where
  riskScore : ℚ
  riskLevel : RiskLevel
  riskColor : String
  riskEmoji : String
  isHighRisk : Bool
  fraudCategory : NamedCategory
  warnings : List String
  recommendedActions : List String
  reasoning : String
  deriving Repr, DecidableEq

structure QrOk where
  extracted : QrExtracted
  analysis : QrAnalysis
  deriving Repr, DecidableEq

/-- `analyzeUpiQr`; `hour` stands for the wall clock the inner transaction
analysis reads, `qrAi` for its optional LLM verdict. -/
def analyzeUpiQr (rawQrString : String) (hour : ℕ) (qrAi : Option AiTxnVerdict) :
    Except String QrOk :=
  match parseUpiPaymentUri rawQrString with
  | .error e => .error e
  | .ok parsed =>
    let extracted : QrExtracted :=
      { upiId := if parsed.upiId = "" then none else some parsed.upiId,
        merchantName := if parsed.merchantName = "" then none else some parsed.merchantName,
        amount := if parsed.amount = "" then none else some parsed.amount }
    let rule := ruleBasedQrRisk parsed
    let txnForAI : Txn :=
      { senderUPI := "unknown",
        receiverUPI := (extracted.upiId).getD "unknown",
        amount :=
          match extracted.amount with
          | some s => (jsNumber s).getD 0
          | none => 1,
        type := "P2P",
        description := parsed.raw,
        isNewPayee := true,
        source := "QR_SCAN",
        isRapid := false,
        hour := hour }
    let aiAnalysis := analyzeTransaction txnForAI qrAi
    let mergedScore : ℚ := max (rule.1 : ℚ) aiAnalysis.riskScore
    let merged := scoreToLevel mergedScore
    .ok
      { extracted := extracted,
        analysis :=
          { riskScore := mergedScore,
            riskLevel := merged.level,
            riskColor := merged.color,
            riskEmoji := merged.emoji,
            isHighRisk := merged.level == .HIGH || merged.level == .CRITICAL,
            fraudCategory := ⟨"QR Payment Scam", "📷"⟩,
            warnings :=
              dedup (rule.2 ++
                (aiAnalysis.indicators.map (·.label)).filter (fun l => l ≠ "") ++
                ["QR codes are used to SEND money, not receive money."]),
            recommendedActions :=
              dedup (["Do not scan QR to receive money.",
                      "Verify merchant before proceeding.",
                      "If unsure, avoid payment."] ++ aiAnalysis.recommendedActions),
            reasoning := "QR codes are used to SEND money, not receive money." } }

/-! ### mlFraudService.js -/

/-- A successful response of the external ML probability service
(`getMlFraudProbability`); `none` downstream models failure/timeout. -/
structure MlResult where
  probability : ℚ
  indicators : List String
  deriving Repr, DecidableEq

/-- `getLevelFromScore`: bands at 85 / 70 / 40, non-strict. -/
def getLevelFromScore (score : ℚ) : LevelInfo :=
  if score ≥ 85 then ⟨.CRITICAL, "#dc2626", "🚨"⟩
  else if score ≥ 70 then ⟨.HIGH, "#ea580c", "⚠️"⟩
  else if score ≥ 40 then ⟨.MEDIUM, "#d97706", "🔶"⟩
  else ⟨.LOW, "#16a34a", "✅"⟩

def ML_HIGH_CONFIDENCE_THRESHOLD : ℚ := 9/10
def RULE_HIGH_THRESHOLD : ℚ := 80
def RULE_HIGH_BOOST : ℚ := 10
def SCORE_CAP : ℚ := 100

structure FusionOut where
  score : ℚ
  riskLevel : RiskLevel
  riskColor : String
  riskEmoji : String
  deriving Repr, DecidableEq

/-- `applyAdvancedFusion` from mlFraudService.js (`Number(x) || 0` is the
identity on rationals). -/
def applyAdvancedFusion (ruleScore mlProbability : ℚ)
    (isBlacklisted : Bool) : FusionOut :=
  if isBlacklisted then
    let l := getLevelFromScore SCORE_CAP
    ⟨SCORE_CAP, l.level, l.color, l.emoji⟩
  else
    let r := min SCORE_CAP (max 0 ruleScore)
    let p := min 1 (max 0 mlProbability)
    let mlScore := p * 100
    let useBoostedWeights := p > ML_HIGH_CONFIDENCE_THRESHOLD
    let wRule : ℚ := if useBoostedWeights then 2/5 else 3/5
    let wMl : ℚ := if useBoostedWeights then 3/5 else 2/5
    let score0 := wRule * r + wMl * mlScore
    let score1 := if r > RULE_HIGH_THRESHOLD then score0 + RULE_HIGH_BOOST else score0
    let score : ℚ := min SCORE_CAP (max 0 ((jsRound score1 : ℤ) : ℚ))
    let l := getLevelFromScore score
    ⟨score, l.level, l.color, l.emoji⟩

/-- `applyAdvancedFusionToScanAnalysis`: fuse, then replace score/level and
append the ML indicators. -/
def applyAdvancedFusionToScanAnalysis (analysis : Analysis)
    (mlResult : Option MlResult) (isBlacklisted : Bool) : Analysis :=
  let ruleScore := analysis.riskScore
  let mlProbability := match mlResult with
    | some m => m.probability
    | none => 0
  let fused := applyAdvancedFusion ruleScore mlProbability isBlacklisted
  let mlIndicators : List Indicator :=
    match mlResult with
    | some m => m.indicators.enum.map (fun p => ⟨s!"ml_{p.1}", s!"ML: {p.2}", "ML"⟩)
    | none => []
  { analysis with
    riskScore := fused.score,
    riskLevel := fused.riskLevel,
    riskColor := fused.riskColor,
    riskEmoji := fused.riskEmoji,
    isHighRisk := decide (fused.score ≥ 50),
    indicators := analysis.indicators ++ mlIndicators,
    mlProbability := mlResult.map (·.probability) }

/-! ### mergeRiskResults (autoDefenseController.js) -/

structure Risk where
  riskScore : ℚ
  riskLevel : RiskLevel
  riskColor : String
  riskEmoji : String
  indicators : List String
  fraudCategory : Option NamedCategory
  reasoning : String
  recommendedActions : List String
  deriving Repr, DecidableEq

/-- The candidate 0–100 scores `mergeRiskResults` collects (scam confidence
scaled to 0–100, transaction risk score, QR risk score when present and
ok). -/
def mergeCandidates (scamAnalysis : Option ScamResult)
    (transactionAnalysis : Option Analysis)
    (qrAnalysis : Option (Except String QrOk)) : List ℚ :=
  (match scamAnalysis with
   | some sa => [((jsRound (jsOrQ sa.confidence 0 * 100) : ℤ) : ℚ)]
   | none => []) ++
  (match transactionAnalysis with
   | some ta => [ta.riskScore]
   | none => []) ++
  (match qrAnalysis with
   | some (.ok q) => [q.analysis.riskScore]
   | _ => [])

/-- `mergeRiskResults`: max-signal fusion of the scam, transaction and QR
analyses into one verdict; the band table uses non-strict thresholds
85 / 70 / 40. -/
def mergeRiskResults (scamAnalysis : Option ScamResult)
    (transactionAnalysis : Option Analysis)
    (qrAnalysis : Option (Except String QrOk)) : Risk :=
  match mergeCandidates scamAnalysis transactionAnalysis qrAnalysis with
  | [] =>
    { riskScore := 0, riskLevel := .LOW, riskColor := "#16a34a", riskEmoji := "✅",
      indicators := [], fraudCategory := none,
      reasoning := "No strong scam indicators detected.",
      recommendedActions := [] }
  | c :: cs =>
    let baseScore := cs.foldl max c
    let lv : RiskLevel × String × String :=
      if baseScore ≥ 85 then (.CRITICAL, "#dc2626", "🚨")
      else if baseScore ≥ 70 then (.HIGH, "#ea580c", "⚠️")
      else if baseScore ≥ 40 then (.MEDIUM, "#d97706", "🔶")
      else (.LOW, "#16a34a", "✅")
    let riskLevel := lv.1
    let riskColor := lv.2.1
    let riskEmoji := lv.2.2
    let txnIndicators :=
      match transactionAnalysis with
      | some ta => ta.indicators.map (·.label)
      | none => []
    let txnCategory :=
      match transactionAnalysis with
      | some ta => ta.fraudCategory
      | none => none
    let txnActions :=
      match transactionAnalysis with
      | some ta => ta.recommendedActions
      | none => []
    let txnReasoning :=
      match transactionAnalysis with
      | some ta => if ta.reasoning ≠ "" then [ta.reasoning] else []
      | none => []
    let (qrIndicators, qrCategory, qrActions, qrReasoning) :
        List String × Option NamedCategory × List String × List String :=
      match qrAnalysis with
      | some (.ok q) =>
        (q.analysis.warnings, some q.analysis.fraudCategory,
         q.analysis.recommendedActions,
         if q.analysis.reasoning ≠ "" then [q.analysis.reasoning] else [])
      | _ => ([], none, [], [])
    let (scamIndicators, scamCategory, scamReasoning) :
        List String × Option NamedCategory × List String :=
      match scamAnalysis with
      | some sa =>
        (sa.indicators,
         if sa.scamType ≠ "" then some ⟨sa.scamType, "🎭"⟩ else none,
         if sa.reasoning ≠ "" then [sa.reasoning] else [])
      | none => ([], none, [])
    let fraudCategory := (txnCategory.orElse (fun _ => qrCategory)).orElse
      (fun _ => scamCategory)
    let reasoningParts := txnReasoning ++ qrReasoning ++ scamReasoning
    { riskScore := baseScore,
      riskLevel := riskLevel,
      riskColor := riskColor,
      riskEmoji := riskEmoji,
      indicators := dedup (txnIndicators ++ qrIndicators ++ scamIndicators),
      fraudCategory := fraudCategory,
      reasoning :=
        jsOrS (String.intercalate " " reasoningParts)
          "Combined risk analysis from text, transaction and QR engines.",
      recommendedActions := dedup (txnActions ++ qrActions) }

/-! ### messageExtractor.js — the regex-based identifier extractor

Each JS regex is rendered as a position matcher (`…MatchAt`) fed to
`scanAll`, reproducing the global-match semantics: leftmost match, greedy
repetition, alternation tried in written order, matches non-overlapping. -/

def isLocalChar (c : Char) : Bool :=
  isAlnumB c || c == '.' || c == '_' || c == '-'

/-- One match of `/[a-zA-Z0-9._-]+@[a-zA-Z0-9]+/` at the head. -/
def upiMatchAt (l : List Char) : Option (List Char × Nat) :=
  let loc := l.takeWhile isLocalChar
  if loc.length = 0 then none
  else
    match l.drop loc.length with
    | '@' :: rest =>
      let hand := rest.takeWhile isAlnumB
      if hand.length = 0 then none
      else some (loc ++ '@' :: hand, loc.length + 1 + hand.length)
    | _ => none

def upiHandles : List String :=
  ["ybl", "axl", "okicici", "oksbi", "okhdfcbank", "paytm", "upi",
   "ibl", "sbi", "apl", "fbl", "ikwik", "ubi", "boi", "kbl",
   "pnb", "idfcfirst", "kotak", "postbank", "rbl", "dlb", "federal",
   "indus", "csbpay", "kvb", "kaypay", "jupiteraxis", "slice",
   "icici", "hdfcbank", "axisbank", "idbi", "indianbank", "cbin",
   "unionbankofindia", "cnrb", "dbs", "hsbc", "scb", "bandhan",
   "mahb", "abfspay", "ratn", "aubank", "pingpay", "waaxis",
   "wahdfcbank", "waapl", "nsdl", "ezeepay", "jupiteraxis", "freecharge"]

/-- The `m.split('@')[1]` of a match (the part after its single `@`). -/
def upiHandleOf (m : List Char) : List Char :=
  (m.dropWhile (fun c => !(c == '@'))).drop 1

/-- `extractUpiIds`: regex matches kept when the handle is a known UPI
provider or is at most 6 characters long. -/
def extractUpiIds (text : String) : List String :=
  ((scanAll upiMatchAt text.toList).filter (fun m =>
      let handle := upiHandleOf m
      upiHandles.contains (String.mk (lowerL handle)) || handle.length ≤ 6)).map
    String.mk

def isSepB (c : Char) : Bool := c == '-' || isWsB c

/-- `[6-9]\d{9}(?!\d)` at the head: the maximal digit run here has length
exactly 10 and starts with 6–9. -/
def phoneCoreAt (l : List Char) : Option (List Char) :=
  match l with
  | c :: _ =>
    let ds := l.takeWhile isDigitB
    if ('6' ≤ c ∧ c ≤ '9') ∧ ds.length = 10 then some ds else none
  | [] => none

/-- One match of `/(?:(?:\+91|91|0)?[-\s]?)?[6-9]\d{9}(?!\d)/` at the head,
trying the prefix and separator alternatives in the regex's backtracking
order. -/
def phoneMatchAt (l : List Char) : Option (List Char × Nat) :=
  firstSome <|
    ([['+', '9', '1'], ['9', '1'], ['0'], []].map fun pfx =>
      match litPrefix pfx l with
      | none => [none]
      | some l1 =>
        let sepOpts : List (List Char) :=
          match l1 with
          | c :: _ => if isSepB c then [[c], []] else [[]]
          | [] => [[]]
        sepOpts.map fun sep =>
          let l2 := l1.drop sep.length
          match phoneCoreAt l2 with
          | some ds =>
            some (pfx ++ sep ++ ds, pfx.length + sep.length + ds.length)
          | none => none).flatten

/-- Cleaning and `+91` normalization of a raw phone match. -/
def normalizePhone (m : List Char) : String :=
  let c := m.filter (fun ch => !(ch == '-' || isWsB ch))
  if c.length = 10 then String.mk ('+' :: '9' :: '1' :: c)
  else if ['9', '1'].isPrefixOf c ∧ c.length = 12 then String.mk ('+' :: c)
  else if ['0', '9', '1'].isPrefixOf c then String.mk ('+' :: '9' :: '1' :: c.drop 3)
  else String.mk c

/-- `extractPhoneNumbers`. -/
def extractPhoneNumbers (text : String) : List String :=
  dedup ((scanAll phoneMatchAt text.toList).map normalizePhone)

/-- The numeric token `[0-9,]+\.?\d*` at the head; returns the capture. -/
def numTokenAt (l : List Char) : Option (List Char) :=
  let dcs := l.takeWhile (fun c => isDigitB c || c == ',')
  if dcs.length = 0 then none
  else
    match l.drop dcs.length with
    | '.' :: rest => some (dcs ++ '.' :: rest.takeWhile isDigitB)
    | _ => some dcs

/-- `parseFloat(capture.replace(/,/g, ''))`; `none` is `NaN`. -/
def parseAmountCapture (cap : List Char) : Option ℚ :=
  let stripped := cap.filter (fun c => !(c == ','))
  let ip := stripped.takeWhile isDigitB
  let fp :=
    match stripped.drop ip.length with
    | '.' :: r => r
    | _ => []
  if ip = [] ∧ fp = [] then none
  else
    some ((ip.foldl (fun a c => a * 10 + (c.toNat - '0'.toNat)) 0 : ℕ) +
          ((fp.foldl (fun a c => a * 10 + (c.toNat - '0'.toNat)) 0 : ℕ) : ℚ) /
            ((10 : ℚ) ^ fp.length))

/-- `/(?:rs\.?|inr|₹)\s*([0-9,]+\.?\d*)/i` at the head. -/
def p1MatchAt (l : List Char) : Option (List Char × Nat) :=
  firstSome <|
    ["rs.", "rs", "inr", "₹"].map fun sym =>
      match litPrefixCi sym.toList l with
      | none => none
      | some l1 =>
        let ws := l1.takeWhile isWsB
        match numTokenAt (l1.drop ws.length) with
        | some cap => some (cap, sym.toList.length + ws.length + cap.length)
        | none => none

/-- `/([0-9,]+\.?\d*)\s*(?:rs\.?|inr|₹|rupees?)/i` at the head. -/
def p2MatchAt (l : List Char) : Option (List Char × Nat) :=
  match numTokenAt l with
  | none => none
  | some cap =>
    let l1 := l.drop cap.length
    let ws := l1.takeWhile isWsB
    let l2 := l1.drop ws.length
    match firstSome (["rs.", "rs", "inr", "₹", "rupees", "rupee"].map fun s =>
        (litPrefixCi s.toList l2).map (fun _ => s)) with
    | some s => some (cap, cap.length + ws.length + s.toList.length)
    | none => none

/-- `/(?:amount|pay|transfer|send|receive|debit|credit)(?:ed|ing)?\s*(?:of|:)?\s*(?:rs\.?|inr|₹)?\s*([0-9,]+\.?\d*)/i`
at the head; every optional group is tried greedily then empty, as the regex
backtracks. -/
def p3MatchAt (l : List Char) : Option (List Char × Nat) :=
  firstSome <|
    ["amount", "pay", "transfer", "send", "receive", "debit", "credit"].map fun kw =>
      match litPrefixCi kw.toList l with
      | none => none
      | some l1 =>
        firstSome <| ["ed", "ing", ""].map fun sf =>
          match litPrefixCi sf.toList l1 with
          | none => none
          | some l2 =>
            let ws1 := l2.takeWhile isWsB
            let l3 := l2.drop ws1.length
            firstSome <| ["of", ":", ""].map fun ofk =>
              match litPrefixCi ofk.toList l3 with
              | none => none
              | some l4 =>
                let ws2 := l4.takeWhile isWsB
                let l5 := l4.drop ws2.length
                firstSome <| ["rs.", "rs", "inr", "₹", ""].map fun cur =>
                  match litPrefixCi cur.toList l5 with
                  | none => none
                  | some l6 =>
                    let ws3 := l6.takeWhile isWsB
                    match numTokenAt (l6.drop ws3.length) with
                    | some cap =>
                      some (cap,
                        kw.toList.length + sf.toList.length + ws1.length +
                        ofk.toList.length + ws2.length + cur.toList.length +
                        ws3.length + cap.length)
                    | none => none

/-- `extractAmounts`: run the three patterns, parse each capture, keep
strictly positive values below 10^8, then de-duplicate. -/
def extractAmounts (text : String) : List ℚ :=
  let l := text.toList
  let caps := scanAll p1MatchAt l ++ scanAll p2MatchAt l ++ scanAll p3MatchAt l
  dedup ((caps.filterMap parseAmountCapture).filter
    (fun n => 0 < n ∧ n < 100000000))

/-- One match of
`/(?:account|a\/c|ac|acct)\s*(?:no|number|#)?[:\s-]*([0-9]{9,18})/i` at the
head; returns the captured digits. -/
def bankMatchAt (l : List Char) : Option (List Char × Nat) :=
  firstSome <|
    ["account", "a/c", "ac", "acct"].map fun kw =>
      match litPrefixCi kw.toList l with
      | none => none
      | some l1 =>
        let ws := l1.takeWhile isWsB
        let l2 := l1.drop ws.length
        firstSome <| ["no", "number", "#", ""].map fun ok =>
          match litPrefixCi ok.toList l2 with
          | none => none
          | some l3 =>
            let seps := l3.takeWhile (fun c => c == ':' || isWsB c || c == '-')
            let l4 := l3.drop seps.length
            let ds := l4.takeWhile isDigitB
            if ds.length ≥ 9 then
              let cap := ds.take 18
              some (cap,
                kw.toList.length + ws.length + ok.toList.length + seps.length +
                cap.length)
            else none

/-- `extractBankAccounts`. -/
def extractBankAccounts (text : String) : List String :=
  dedup ((scanAll bankMatchAt text.toList).map String.mk)

/-- Characters allowed in the URL body: `[^\s<>"{}|\^`‌[\]]` (the brace,
backslash, quote and backtick written via their codes). -/
def urlBodyChar (c : Char) : Bool :=
  !(isWsB c || c == '<' || c == '>' || c == Char.ofNat 34 ||
    c == Char.ofNat 123 || c == Char.ofNat 125 || c == '|' ||
    c == Char.ofNat 92 || c == '^' || c == Char.ofNat 96 ||
    c == '[' || c == ']')

/-- One match of `/https?:\/\/[^\s<>"{}|\\^`‌\[\]]+/i` at the head. -/
def linkMatchAt (l : List Char) : Option (List Char × Nat) :=
  firstSome <|
    ["https://", "http://"].map fun pre =>
      match litPrefixCi pre.toList l with
      | none => none
      | some l1 =>
        let body := l1.takeWhile urlBodyChar
        if body.length ≥ 1 then
          some (l.take (pre.toList.length + body.length),
                pre.toList.length + body.length)
        else none

/-- `extractLinks` (no de-duplication in the source). -/
def extractLinks (text : String) : List String :=
  (scanAll linkMatchAt text.toList).map String.mk

structure RuleExtract where
  senderUPI : Option String
  receiverUPI : Option String
  allUpiIds : List String
  phoneNumbers : List String
  amounts : List ℚ
  amount : Option ℚ
  bankAccounts : List String
  links : List String
  rawMessage : String
  deriving Repr, DecidableEq

/-- `extractAmounts(text)[0] || null`. -/
def firstAmountOrNull (amts : List ℚ) : Option ℚ :=
  match amts.head? with
  | some a => if a = 0 then none else some a
  | none => none

/-- `extractFromTextRuleBased`. -/
def extractFromTextRuleBased (text : String) : RuleExtract :=
  let upiIds := extractUpiIds text
  { senderUPI := none,
    receiverUPI := upiIds.head?,
    allUpiIds := upiIds,
    phoneNumbers := extractPhoneNumbers text,
    amounts := extractAmounts text,
    amount := firstAmountOrNull (extractAmounts text),
    bankAccounts := extractBankAccounts text,
    links := extractLinks text,
    rawMessage := text }

/-- The normalized record `extractFromTextAI` builds from the LLM's JSON;
`none` for the whole record models an unconfigured or failing LLM. -/
structure AiExtract where
  senderUPI : Option String
  receiverUPI : Option String
  allUpiIds : List String
  amount : Option ℚ
  phoneNumbers : List String
  bankAccounts : List String
  links : List String
  transactionType : String
  source : String
  description : String
  isNewPayee : Bool
  fraudIndicators : List String
  scamType : Option String
  deriving Repr, DecidableEq

structure MergedExtract where
  senderUPI : Option String
  receiverUPI : Option String
  allUpiIds : List String
  amount : ℚ
  phoneNumbers : List String
  bankAccounts : List String
  links : List String
  transactionType : String
  source : String
  description : String
  isNewPayee : Bool
  fraudIndicators : List String
  scamType : Option String
  rawMessage : String
  aiExtracted : Bool
  deriving Repr, DecidableEq

/-- `a || b` on nullable strings. -/
def jsOrOpt (a b : Option String) : Option String :=
  match a with
  | some s => if s = "" then b else some s
  | none => b

/-- `a || b` on a nullable number and a number (`0` and `null` falsy). -/
def jsOrOptQ (a : Option ℚ) (b : ℚ) : ℚ :=
  match a with
  | some x => if x = 0 then b else x
  | none => b

/-- `extractTransactionFromMessage`: rule extraction merged with the optional
AI extraction, AI values preferred, list fields unioned. -/
def extractTransactionFromMessage (messageText : String)
    (aiResult : Option AiExtract) : Except String MergedExtract :=
  if jsTrim messageText = "" then .error "Empty message"
  else
    let text := jsTrim messageText
    let ruleResult := extractFromTextRuleBased text
    .ok
      { senderUPI := jsOrOpt (aiResult.bind (·.senderUPI)) ruleResult.senderUPI,
        receiverUPI := jsOrOpt (aiResult.bind (·.receiverUPI)) ruleResult.receiverUPI,
        allUpiIds :=
          dedup (((aiResult.map (·.allUpiIds)).getD []) ++ ruleResult.allUpiIds),
        amount :=
          jsOrOptQ (aiResult.bind (·.amount)) (jsOrOptQ ruleResult.amount 0),
        phoneNumbers :=
          dedup (((aiResult.map (·.phoneNumbers)).getD []) ++ ruleResult.phoneNumbers),
        bankAccounts :=
          dedup (((aiResult.map (·.bankAccounts)).getD []) ++ ruleResult.bankAccounts),
        links := dedup (((aiResult.map (·.links)).getD []) ++ ruleResult.links),
        transactionType := jsOrOptS (aiResult.map (·.transactionType)) "UNKNOWN",
        source := jsOrOptS (aiResult.map (·.source)) "UNKNOWN",
        description := jsOrOptS (aiResult.map (·.description)) (sTake text 100),
        isNewPayee := (aiResult.map (·.isNewPayee)).getD true,
        fraudIndicators := (aiResult.map (·.fraudIndicators)).getD [],
        scamType := aiResult.bind (·.scamType),
        rawMessage := text,
        aiExtracted := aiResult.isSome }

/-! ### autoDefenseController.js — the chat-session orchestrator

The handler's external collaborators are explicit inputs of a turn: the
blacklist lookup's boolean outcome, the three optional LLM verdicts, the
wall-clock hour and the generated honeypot reply text.  The handler body from
the session load to the save is the function `handleChatMessage` below; HTTP
validation and the 500 path are outside the model.  The `{error"Empty
message"}` record the extractor returns for whitespace-only text reaches the
use sites as `undefined` fields; `errExtract` renders it with the values the
JS falsy coercions produce there. -/

def MAX_TEXT_LENGTH : ℕ := 4000

structure ChatMessage where
  sender : String
  text : String
  deliveredToVictim : Bool
  deriving Repr, DecidableEq

structure ExtractedDetails where
  upiIds : List String
  phoneNumbers : List String
  links : List String
  bankAccounts : List String
  deriving Repr, DecidableEq

structure ChatSession where
  sessionId : String
  scammerId : String
  victimId : Option String
  messages : List ChatMessage
  extractedDetails : ExtractedDetails
  lastRisk : Option Risk
  divertedToHoneypot : Bool
  isScamConfirmed : Bool
  deriving Repr, DecidableEq

/-- A freshly created session document (`ChatSession.create`). -/
def newChatSession (sessionId scammerId : String) (victimId : Option String) :
    ChatSession :=
  { sessionId := sessionId, scammerId := scammerId, victimId := victimId,
    messages := [], extractedDetails := ⟨[], [], [], []⟩, lastRisk := none,
    divertedToHoneypot := false, isScamConfirmed := false }

/-- `mergeExtracted`: set-union of the extracted identifier lists. -/
def mergeExtracted (target : ExtractedDetails) (extracted : MergedExtract) :
    ExtractedDetails :=
  { upiIds := dedup (target.upiIds ++ extracted.allUpiIds),
    phoneNumbers := dedup (target.phoneNumbers ++ extracted.phoneNumbers),
    links := dedup (target.links ++ extracted.links),
    bankAccounts := dedup (target.bankAccounts ++ extracted.bankAccounts) }

/-- The external inputs of one scammer turn. -/
structure TurnInput where
  text : String
  blacklisted : Bool
  aiExtract : Option AiExtract
  aiScam : Option AiVerdict
  aiTxn : Option AiTxnVerdict
  qrAi : Option AiTxnVerdict
  hour : ℕ
  honeypotReply : String
  deriving Repr, DecidableEq

structure TurnOutput where
  session : ChatSession
  diverted : Bool
  risk : Risk
  honeypotReply : Option String
  blacklistUpserted : Bool
  deriving Repr, DecidableEq

/-- The `{error: "Empty message"}` record as its undefined fields read at the
orchestrator's use sites (after JS falsy coercions). -/
def errExtract : MergedExtract :=
  { senderUPI := none, receiverUPI := none, allUpiIds := [], amount := 0,
    phoneNumbers := [], bankAccounts := [], links := [],
    transactionType := "", source := "", description := "", isNewPayee := true,
    fraudIndicators := [], scamType := none, rawMessage := "",
    aiExtracted := false }

/-- Set `deliveredToVictim` on the message at index `i`. -/
def markDeliveredAt (msgs : List ChatMessage) (i : ℕ) : List ChatMessage :=
  msgs.enum.map (fun p =>
    if p.1 = i then { p.2 with deliveredToVictim := true } else p.2)

/-- The transaction object the orchestrator builds from the extraction. -/
def txnFromExtracted (extracted : MergedExtract) (hour : ℕ) : Txn :=
  { senderUPI := jsOrOptS extracted.senderUPI "unknown",
    receiverUPI :=
      jsOrS ((jsOrOpt extracted.receiverUPI extracted.allUpiIds.head?).getD "unknown")
        "unknown",
    amount := jsOrQ extracted.amount 1,
    type := jsOrS extracted.transactionType "P2P",
    description := extracted.rawMessage,
    isNewPayee := extracted.isNewPayee,
    source := jsOrS extracted.source "SMS",
    isRapid := false,
    hour := hour }

/-- `handleChatMessage` (lines 170–325): one scammer turn on a loaded
session. -/
def handleChatMessage (session : ChatSession) (inp : TurnInput) : TurnOutput :=
  let cleanText := sTake (jsTrim inp.text) MAX_TEXT_LENGTH
  let extracted :=
    match extractTransactionFromMessage cleanText inp.aiExtract with
    | .ok m => m
    | .error _ => errExtract
  let s1 : ChatSession :=
    { session with
      messages := session.messages ++ [⟨"scammer", cleanText, false⟩],
      extractedDetails := mergeExtracted session.extractedDetails extracted }
  let scamAnalysis := detectScam cleanText inp.aiScam
  let transactionAnalysis :=
    analyzeTransaction (txnFromExtracted extracted inp.hour) inp.aiTxn
  let qrAnalysis :=
    if strIncludes (lowerS cleanText) "upi://pay" then
      some (analyzeUpiQr cleanText inp.hour inp.qrAi)
    else none
  let risk := mergeRiskResults (some scamAnalysis) (some transactionAnalysis) qrAnalysis
  if inp.blacklisted || session.divertedToHoneypot then
    let s2 : ChatSession :=
      { s1 with divertedToHoneypot := true, isScamConfirmed := true,
                lastRisk := some risk }
    let scamIndex := s2.messages.length - 1
    let s3 := { s2 with messages := markDeliveredAt s2.messages scamIndex }
    if risk.riskScore ≥ 70 then
      { session :=
          { s3 with messages := s3.messages ++ [⟨"honeypot", inp.honeypotReply, true⟩] },
        diverted := true, risk := risk,
        honeypotReply := some inp.honeypotReply, blacklistUpserted := false }
    else
      { session := s3, diverted := true, risk := risk,
        honeypotReply := none, blacklistUpserted := false }
  else
    let s2 : ChatSession := { s1 with lastRisk := some risk }
    let lastIndex := s2.messages.length - 1
    if risk.riskScore ≥ 70 then
      let s3 : ChatSession :=
        { s2 with divertedToHoneypot := true, isScamConfirmed := true }
      let s4 : ChatSession :=
        { s3 with messages :=
            (markDeliveredAt (s3.messages ++ [⟨"honeypot", inp.honeypotReply, true⟩])
              lastIndex) }
      { session := s4, diverted := s4.divertedToHoneypot, risk := risk,
        honeypotReply := some inp.honeypotReply, blacklistUpserted := true }
    else if risk.riskScore ≥ 40 then
      let s3 : ChatSession :=
        { s2 with messages := markDeliveredAt s2.messages lastIndex,
                  divertedToHoneypot := false }
      { session := s3, diverted := s3.divertedToHoneypot, risk := risk,
        honeypotReply := none, blacklistUpserted := false }
    else
      let s3 : ChatSession :=
        { s2 with messages := markDeliveredAt s2.messages lastIndex }
      { session := s3, diverted := s3.divertedToHoneypot, risk := risk,
        honeypotReply := none, blacklistUpserted := false }

/-- A sequence of scammer turns on one session. -/
def runChatTurns (session : ChatSession) (turns : List TurnInput) : ChatSession :=
  turns.foldl (fun s t => (handleChatMessage s t).session) session

/-! ### handleVictimReply (autoDefenseController.js, lines 337–385) -/

structure VictimReplyOut where
  status : ℕ
  stored : Option ChatSession
  deriving Repr, DecidableEq

def MAX_VICTIM_TEXT_LENGTH : ℕ := 4000

/-- `handleVictimReply`: `found` is the `findOne` result and `stored` the
session document after the request (unchanged unless a message is appended
and saved). -/
def handleVictimReply (sessionId rawText : String)
    (found : Option ChatSession) : VictimReplyOut :=
  if sessionId = "" ∨ jsTrim rawText = "" then ⟨400, found⟩
  else
    match found with
    | none => ⟨404, none⟩
    | some s =>
      let text := sTake (jsTrim rawText) MAX_VICTIM_TEXT_LENGTH
      let riskScore : ℚ :=
        match s.lastRisk with
        | some r => r.riskScore
        | none => 0
      if riskScore ≥ 70 ∧ s.divertedToHoneypot then ⟨403, some s⟩
      else
        ⟨200, some { s with messages := s.messages ++ [⟨"victim", text, true⟩] }⟩

/-! ### sessionManager.js — the in-memory honeypot session store

The `Map` is an insertion-ordered association list; `Date.now()` is an
explicit `ℕ` millisecond argument `t` of every operation.  Each operation
returns the value the JS method returns together with the updated store. -/

structure HMessage where
  sender : String
  text : String
  deriving Repr, DecidableEq

structure Intelligence where
  bankAccounts : List String
  upiIds : List String
  phishingLinks : List String
  phoneNumbers : List String
  suspiciousKeywords : List String
  deriving Repr, DecidableEq

structure HSession where
  sessionId : String
  createdAt : ℕ
  lastActivity : ℕ
  scamDetected : Bool
  scamConfidence : ℚ
  scamScores : List ℚ
  messageCount : ℕ
  conversationHistory : List HMessage
  extractedIntelligence : Intelligence
  agentNotes : List String
  callbackSent : Bool
  scamType : Option String
  deriving Repr, DecidableEq

abbrev HStore : Type := List (String × HSession)

def freshHSession (sessionId : String) (t : ℕ) : HSession :=
  { sessionId := sessionId, createdAt := t, lastActivity := t,
    scamDetected := false, scamConfidence := 0, scamScores := [],
    messageCount := 0, conversationHistory := [],
    extractedIntelligence := ⟨[], [], [], [], []⟩,
    agentNotes := [], callbackSent := false, scamType := none }

def storeSet (store : HStore) (sessionId : String) (s : HSession) : HStore :=
  if store.any (fun p => p.1 == sessionId) then
    store.map (fun p => if p.1 == sessionId then (sessionId, s) else p)
  else store ++ [(sessionId, s)]

/-- `getSession`: create a fresh session when the id is unknown, then stamp
`lastActivity` with the current time. -/
def getSession (store : HStore) (sessionId : String) (t : ℕ) :
    HSession × HStore :=
  let store1 :=
    if (List.lookup sessionId store).isSome then store
    else store ++ [(sessionId, freshHSession sessionId t)]
  let s := (List.lookup sessionId store1).getD (freshHSession sessionId t)
  let s1 := { s with lastActivity := t }
  (s1, storeSet store1 sessionId s1)

def addMessage (store : HStore) (sessionId : String) (t : ℕ) (m : HMessage) :
    HSession × HStore :=
  let (s, st) := getSession store sessionId t
  let s1 := { s with conversationHistory := s.conversationHistory ++ [m],
                     messageCount := s.messageCount + 1 }
  (s1, storeSet st sessionId s1)

def updateScamStatus (store : HStore) (sessionId : String) (t : ℕ)
    (scamDetected : Bool) (confidence : ℚ) : HSession × HStore :=
  let (s, st) := getSession store sessionId t
  let s1 := { s with scamDetected := scamDetected, scamConfidence := confidence }
  (s1, storeSet st sessionId s1)

def addIntelligence (store : HStore) (sessionId : String) (t : ℕ)
    (intel : Intelligence) : HSession × HStore :=
  let (s, st) := getSession store sessionId t
  let i := s.extractedIntelligence
  let s1 := { s with extractedIntelligence :=
    { bankAccounts := dedup (i.bankAccounts ++ intel.bankAccounts),
      upiIds := dedup (i.upiIds ++ intel.upiIds),
      phishingLinks := dedup (i.phishingLinks ++ intel.phishingLinks),
      phoneNumbers := dedup (i.phoneNumbers ++ intel.phoneNumbers),
      suspiciousKeywords := dedup (i.suspiciousKeywords ++ intel.suspiciousKeywords) } }
  (s1, storeSet st sessionId s1)

def addAgentNote (store : HStore) (sessionId : String) (t : ℕ) (note : String) :
    HSession × HStore :=
  let (s, st) := getSession store sessionId t
  let s1 := { s with agentNotes := s.agentNotes ++ [note] }
  (s1, storeSet st sessionId s1)

def markCallbackSent (store : HStore) (sessionId : String) (t : ℕ) :
    HSession × HStore :=
  let (s, st) := getSession store sessionId t
  let s1 := { s with callbackSent := true }
  (s1, storeSet st sessionId s1)

def shouldSendCallback (store : HStore) (sessionId : String) (t : ℕ) :
    Bool × HStore :=
  let (s, st) := getSession store sessionId t
  (s.scamDetected && !s.callbackSent && s.messageCount ≥ minMessagesForCallback, st)

structure SessionSummary where
  sessionId : String
  scamDetected : Bool
  totalMessagesExchanged : ℕ
  extractedIntelligence : Intelligence
  agentNotes : String
  deriving Repr, DecidableEq

def getSessionSummary (store : HStore) (sessionId : String) (t : ℕ) :
    SessionSummary × HStore :=
  let (s, st) := getSession store sessionId t
  ({ sessionId := s.sessionId, scamDetected := s.scamDetected,
     totalMessagesExchanged := s.messageCount,
     extractedIntelligence := s.extractedIntelligence,
     agentNotes := String.intercalate "; " s.agentNotes }, st)

/-- `cleanupExpiredSessions`: evict sessions idle strictly longer than the
timeout. -/
def cleanupExpiredSessions (store : HStore) (now : ℕ) : HStore :=
  store.filter (fun p => ¬ (now - p.2.lastActivity > sessionTimeoutMs))

def deleteSession (store : HStore) (sessionId : String) : HStore :=
  store.filter (fun p => ¬ (p.1 == sessionId))

/-- `GET /api/honeypot/session/:sessionId` (routes/honeypot.js): the
debugging view reads the session through `getSession`. -/
structure DebugView where
  sessionId : String
  scamDetected : Bool
  confidence : ℚ
  messageCount : ℕ
  extractedIntelligence : Intelligence
  agentNotes : List String
  callbackSent : Bool
  createdAt : ℕ
  lastActivity : ℕ
  deriving Repr, DecidableEq

def getSessionDebugView (store : HStore) (sessionId : String) (t : ℕ) :
    DebugView × HStore :=
  let (s, st) := getSession store sessionId t
  ({ sessionId := s.sessionId, scamDetected := s.scamDetected,
     confidence := s.scamConfidence, messageCount := s.messageCount,
     extractedIntelligence := s.extractedIntelligence,
     agentNotes := s.agentNotes, callbackSent := s.callbackSent,
     createdAt := s.createdAt, lastActivity := s.lastActivity }, st)

/-! ### POST /api/honeypot (routes/honeypot.js): the per-scammer-turn
scam-status block, lines 289–321

`session` is the live object `getSession` returned, so the
`sessionManager.updateScamStatus` call mutates the very object the later
`!session.scamDetected` guard reads. -/

/-- `session.scamType` is falsy (`undefined` or empty). -/
def scamTypeFalsy (o : Option String) : Bool :=
  match o with
  | none => true
  | some s => s == ""

/-- The scammer-branch scam-status update: push the turn confidence, average,
never downgrade, set the scam type, and (only when the post-update object
still reads as undetected) add the detection note. -/
def honeypotScamStatusUpdate (s : HSession) (confidence : ℚ)
    (scamResultType : String) : HSession :=
  let scores := s.scamScores ++ [jsOrQ confidence 0]
  let totalScore := scores.foldl (· + ·) 0
  let avgScore : ℚ := if scores.length > 0 then totalScore / scores.length else 0
  let isSessionScam := s.scamDetected || decide (avgScore ≥ scamThreshold)
  let updatedScamDetected := s.scamDetected || isSessionScam
  let s1 := { s with scamScores := scores, scamDetected := updatedScamDetected,
                     scamConfidence := avgScore }
  let s2 :=
    if updatedScamDetected && scamTypeFalsy s1.scamType then
      { s1 with scamType := some (jsOrS scamResultType "suspected scam") }
    else s1
  if !s2.scamDetected && isSessionScam then
    let pct := jsRound (avgScore * 100)
    let ty := (s2.scamType).getD ""
    { s2 with agentNotes := s2.agentNotes ++
        [s!"Scam detected with {pct}% average confidence across messages. Type: {ty}."] }
  else s2

/-! ### POST /api/upi/validate-transaction (routes/upifraud.js, lines 117–239)

The blacklist lookup outcome, the wall-clock hour, the optional LLM verdicts
and the optional ML response are explicit inputs.  The route rebuilds its
indicator list as plain strings; the model tracks those strings in
`triggeredIndicators` while the typed `Analysis` record carries the scores. -/

/-- `riskLevelFromScore` of routes/upifraud.js: bands 85 / 70 / 40,
non-strict. -/
def riskLevelFromScore (score : ℚ) : LevelInfo :=
  if score ≥ 85 then ⟨.CRITICAL, "#dc2626", "🚨"⟩
  else if score ≥ 70 then ⟨.HIGH, "#ea580c", "⚠️"⟩
  else if score ≥ 40 then ⟨.MEDIUM, "#d97706", "🔶"⟩
  else ⟨.LOW, "#16a34a", "✅"⟩

structure ValidateOut where
  riskScore : ℚ
  riskLevel : RiskLevel
  isFraud : Bool
  shouldBlock : Bool
  message : String
  triggeredIndicators : List String
  blacklisted : Bool
  blacklistUpserted : Bool
  deriving Repr, DecidableEq

/-- The rule/text max-merged score the route computes before the optional ML
fusion (`mergedScore` at line 175). -/
def vtMergedScore (amount : Option ℚ) (receiverUPI : String)
    (description : Option String) (newPayee : Bool) (hour : ℕ)
    (aiTxn : Option AiTxnVerdict) (aiScam : Option AiVerdict) : ℚ :=
  let receiver := jsTrim receiverUPI
  let amt : ℚ := (amount.getD 0)
  let desc := description.getD ""
  let transaction : Txn :=
    { senderUPI := "unknown", receiverUPI := receiver, amount := amt,
      type := "P2P", description := desc, isNewPayee := newPayee,
      source := "USER_PAY", isRapid := false, hour := hour }
  let analysis := analyzeTransaction transaction aiTxn
  let combinedText :=
    String.intercalate " "
      (([desc, receiver, if amt > 0 then s!"Amount Rs {amt}" else ""]).filter
        (fun p => p ≠ ""))
  let scamAnalysis := detectScam (jsOrS combinedText receiver) aiScam
  let scamScore : ℚ := ((jsRound (jsOrQ scamAnalysis.confidence 0 * 100) : ℤ) : ℚ)
  max analysis.riskScore scamScore

/-- `POST /api/upi/validate-transaction`: blacklist short-circuit, rule + text
max-merge, then ML advanced fusion only when the ML client returned a
result.  `.error` is the 400 on a missing receiver. -/
def validateTransaction (amount : Option ℚ) (receiverUPI : Option String)
    (description : Option String) (newPayee : Bool) (blacklisted : Bool)
    (hour : ℕ) (aiTxn : Option AiTxnVerdict) (aiScam : Option AiVerdict)
    (mlResult : Option MlResult) : Except String ValidateOut :=
  let receiver := jsTrim (receiverUPI.getD "")
  if receiver = "" then .error "Missing required field: receiverUPI"
  else if blacklisted then
    .ok
      { riskScore := 100,
        riskLevel := (riskLevelFromScore 100).level,
        isFraud := true, shouldBlock := true,
        message := "This UPI ID is in our blacklist. Do not send money or exchange with this recipient.",
        triggeredIndicators := ["UPI ID is blacklisted – previously flagged as high risk"],
        blacklisted := true, blacklistUpserted := false }
  else
    let amt : ℚ := (amount.getD 0)
    let desc := description.getD ""
    let transaction : Txn :=
      { senderUPI := "unknown", receiverUPI := receiver, amount := amt,
        type := "P2P", description := desc, isNewPayee := newPayee,
        source := "USER_PAY", isRapid := false, hour := hour }
    let analysis := analyzeTransaction transaction aiTxn
    let combinedText :=
      String.intercalate " "
        (([desc, receiver, if amt > 0 then s!"Amount Rs {amt}" else ""]).filter
          (fun p => p ≠ ""))
    let scamAnalysis := detectScam (jsOrS combinedText receiver) aiScam
    let scamScore : ℚ := ((jsRound (jsOrQ scamAnalysis.confidence 0 * 100) : ℤ) : ℚ)
    let mergedScore := max analysis.riskScore scamScore
    let analysis1 :=
      { analysis with
        riskScore := mergedScore,
        riskLevel := (riskLevelFromScore mergedScore).level,
        riskColor := (riskLevelFromScore mergedScore).color,
        riskEmoji := (riskLevelFromScore mergedScore).emoji }
    let indicators1 :=
      analysis.indicators.map (·.label) ++ scamAnalysis.indicators
    let analysis2 :=
      match mlResult with
      | some m => applyAdvancedFusionToScanAnalysis analysis1 (some m) false
      | none => analysis1
    let indicatorsFinal :=
      indicators1 ++
        (match mlResult with
         | some m => m.indicators.map (fun l => s!"ML: {l}")
         | none => [])
    let riskScore := analysis2.riskScore
    let shouldBlock := decide (riskScore ≥ 70)
    .ok
      { riskScore := riskScore,
        riskLevel := analysis2.riskLevel,
        isFraud := shouldBlock, shouldBlock := shouldBlock,
        message :=
          if shouldBlock then "Do not pay. This transaction was flagged as high risk."
          else if riskScore ≥ 40 then "Caution. Verify the recipient before paying."
          else "Transaction appears safe. Always verify the payee.",
        triggeredIndicators := indicatorsFinal,
        blacklisted := false, blacklistUpserted := shouldBlock }

/-! ### Specification-side band tables (for comparison with the code)

`bandLevel` is the band table of spec §4.8 exactly as the specification
words it (non-strict thresholds 85 / 70 / 40).  `analyzerBandLevel` and
`strictBandLevel` name the bands the code actually uses in
`upiTransactionAnalyzer.getRiskLevel` (75 / 50 / 25, non-strict) and
`qrAnalyzerService.scoreToLevel` (85 / 70 / 40, strict). -/

def bandLevel (score : ℚ) : RiskLevel :=
  if score ≥ 85 then .CRITICAL
  else if score ≥ 70 then .HIGH
  else if score ≥ 40 then .MEDIUM
  else .LOW

def analyzerBandLevel (score : ℚ) : RiskLevel :=
  if score ≥ 75 then .CRITICAL
  else if score ≥ 50 then .HIGH
  else if score ≥ 25 then .MEDIUM
  else .LOW

def strictBandLevel (score : ℚ) : RiskLevel :=
  if score > 85 then .CRITICAL
  else if score > 70 then .HIGH
  else if score > 40 then .MEDIUM
  else .LOW

/-- The score formula as the specification words it: 100 on a blacklist hit;
otherwise the weighted sum of the clamped inputs, rounded, plus the
rule-strong boost, clamped to `[0,100]`; weights chosen by the raw ML
probability. -/
def advancedFusionSpec (ruleScore mlProbability : ℚ) (isBlacklisted : Bool) : ℚ :=
  if isBlacklisted then 100
  else
    let wRule : ℚ := if mlProbability > 9/10 then 2/5 else 3/5
    let wMl : ℚ := if mlProbability > 9/10 then 3/5 else 2/5
    let r := min 100 (max 0 ruleScore)
    let p := min 1 (max 0 mlProbability)
    let base : ℚ := ((jsRound (wRule * r + wMl * (p * 100)) : ℤ) : ℚ)
    let boosted := base + (if ruleScore > 80 then (10 : ℚ) else 0)
    min 100 (max 0 boosted)

/-! ### Event traces over the honeypot session store (for claim C10)

A trace interleaves reads of one session id (any sessionManager operation —
they all route through `getSession`) with runs of the eviction sweeper.  A
trace is "good" for a session when every sweep happens within
`sessionTimeoutMs` of the session's `lastActivity` at that moment, i.e. the
session is read at least once per timeout window. -/

inductive HpEvent where
  | read (t : ℕ)
  | sweep (t : ℕ)
  deriving Repr, DecidableEq

/-- Run a trace of events against the store: a `read t` is `getSession` at
time `t` (the common effect of every sessionManager operation), a `sweep t`
is `cleanupExpiredSessions` at time `t`. -/
def runEvents (store : HStore) (sessionId : String) : List HpEvent → HStore
  | [] => store
  | HpEvent.read t :: es => runEvents (getSession store sessionId t).2 sessionId es
  | HpEvent.sweep t :: es => runEvents (cleanupExpiredSessions store t) sessionId es

/-- `goodTrace tLast es`: every sweep occurs at most `sessionTimeoutMs` after
the session's most recent activity stamp, which starts at `tLast` and is
refreshed by each read. -/
def goodTrace : ℕ → List HpEvent → Prop
  | _, [] => True
  | _, HpEvent.read t :: es => goodTrace t es
  | tLast, HpEvent.sweep t :: es => t - tLast ≤ sessionTimeoutMs ∧ goodTrace tLast es

/-! ## Helper lemmas -/

theorem jsRound_mono {x y : ℚ} (h : x ≤ y) : jsRound x ≤ jsRound y := by
  unfold jsRound
  rw [round_eq, round_eq]
  exact Int.floor_mono (by linarith)

theorem jsRound_nonneg {x : ℚ} (h : 0 ≤ x) : 0 ≤ jsRound x := by
  have h0 : jsRound (0 : ℚ) = 0 := by simp [jsRound]
  simpa [h0] using jsRound_mono h

theorem jsRound_le_of_le {x : ℚ} {n : ℕ} (h : x ≤ n) : jsRound x ≤ n := by
  have hn : jsRound ((n : ℚ)) = n := by simp [jsRound]
  simpa [hn] using jsRound_mono h

theorem jsOrQ_zero (x : ℚ) : jsOrQ x 0 = x := by
  unfold jsOrQ
  split <;> simp_all

/-- `min 1 (max 0 p) > 9/10 ↔ p > 9/10`: clamping to `[0,1]` does not move a
value across `0.9`. -/
theorem clamp01_gt_nine_tenths (p : ℚ) :
    (min 1 (max 0 p) > 9/10) ↔ p > 9/10 := by
  constructor
  · intro h
    by_contra hp
    push_neg at hp
    have : max 0 p ≤ 9/10 := max_le (by norm_num) hp
    have : min 1 (max 0 p) ≤ 9/10 := le_trans (min_le_right _ _) this
    linarith
  · intro h
    have h0 : max 0 p = p := max_eq_right (by linarith)
    rw [h0]
    exact lt_min (by norm_num) h

/-- `min 100 (max 0 r) > 80 ↔ r > 80`. -/
theorem clamp0100_gt_eighty (r : ℚ) :
    (min 100 (max 0 r) > 80) ↔ r > 80 := by
  constructor
  · intro h
    by_contra hr
    push_neg at hr
    have : max 0 r ≤ 80 := max_le (by norm_num) hr
    have : min 100 (max 0 r) ≤ 80 := le_trans (min_le_right _ _) this
    linarith
  · intro h
    have h0 : max 0 r = r := max_eq_right (by linarith)
    rw [h0]
    exact lt_min (by norm_num) h

/-! ## Claim C3 — `applyAdvancedFusion` -/

/-- C3: `applyAdvancedFusion` returns 100 on a blacklist hit and otherwise
the rounded weighted sum of the clamped rule score and ML probability with
the high-ML weight switch and the rule-strong +10 boost, clamped to
`[0,100]`; the result is always within `[0,100]`. -/
theorem applyAdvancedFusion_spec :
    (∀ r p bl, (applyAdvancedFusion r p bl).score = advancedFusionSpec r p bl) ∧
    (∀ r p bl, 0 ≤ (applyAdvancedFusion r p bl).score ∧
      (applyAdvancedFusion r p bl).score ≤ 100) ∧
    (∀ r p, (applyAdvancedFusion r p true).score = 100) := by
  refine ⟨?_, ?_, ?_⟩
  · intro r p bl
    cases bl with
    | true => simp [applyAdvancedFusion, advancedFusionSpec, SCORE_CAP]
    | false =>
      have key : ∀ x : ℚ, jsRound (x + 10) = jsRound x + 10 := by
        intro x
        have hx : (x + 10 : ℚ) = x + ((10 : ℤ) : ℚ) := by push_cast; ring
        rw [jsRound, jsRound, hx, round_add_int]
      have e1 : (min 1 (max 0 p) > 9/10) = (p > 9/10) :=
        propext (clamp01_gt_nine_tenths p)
      have e2 : (min 100 (max 0 r) > 80) = (r > 80) :=
        propext (clamp0100_gt_eighty r)
      simp only [applyAdvancedFusion, advancedFusionSpec, SCORE_CAP,
        ML_HIGH_CONFIDENCE_THRESHOLD, RULE_HIGH_THRESHOLD, RULE_HIGH_BOOST,
        Bool.false_eq_true, if_false, e1, e2]
      by_cases hb : r > 80
      · simp only [hb, if_true]
        rw [key]
        push_cast
        ring_nf
      · simp [hb]
  · intro r p bl
    cases bl with
    | true =>
      constructor <;> simp [applyAdvancedFusion, SCORE_CAP]
    | false =>
      constructor
      · simp only [applyAdvancedFusion, SCORE_CAP, Bool.false_eq_true, if_false]
        exact le_min (by norm_num) (le_max_left _ _)
      · simp only [applyAdvancedFusion, SCORE_CAP, Bool.false_eq_true, if_false]
        exact min_le_left _ _
  · intro r p
    simp [applyAdvancedFusion, SCORE_CAP]

/-! ## Claim C7 — `detectScam`'s `isScam` versus its confidence -/

/-- C7 counterexample: with the LLM verdict `isScam = true, confidence = 0.1`
on a neutral text, `detectScam` returns `isScam = true` while the returned
confidence `0.1` is below the scam threshold `0.4` — refuting
`isScam ⇔ confidence ≥ 0.4`. -/
theorem detectScam_iff_counterexample :
    (detectScam "hello" (some ⟨true, 1/10, none, [], none⟩)).isScam = true ∧
    (detectScam "hello" (some ⟨true, 1/10, none, [], none⟩)).confidence = 1/10 ∧
    ¬ ((detectScam "hello" (some ⟨true, 1/10, none, [], none⟩)).confidence ≥
        scamThreshold) := by
  refine ⟨by with_unfolding_all decide, by with_unfolding_all decide,
    by with_unfolding_all decide⟩

theorem min_one_add_ge_thr {x b : ℚ} (hx : scamThreshold ≤ x) (hb : 0 ≤ b) :
    scamThreshold ≤ min 1 (x + b) :=
  le_min (by norm_num [scamThreshold]) (by linarith)

/-- C7 amended: `detectScam` reports `isScam = true` exactly when the AI
verdict is present and itself says scam, or the pre-rounding final confidence
reaches the scam threshold 0.4. -/
theorem detectScam_isScam_characterization (text : String) (ai : Option AiVerdict) :
    (detectScam text ai).isScam =
      ((match ai with | some a => a.isScam | none => false) ||
        decide (scamThreshold ≤ (detectScamCore text ai).finalConfidence)) := by
  have hb0 : (0 : ℚ) ≤ ((detectOtpFraud text).riskIncrement : ℚ) / 100 := by positivity
  have hOiff : (detectOtpFraud text).riskIncrement > 0 →
      ((detectOtpFraud text).riskIncrement : ℚ) / 100 > 0 := fun h =>
    div_pos (by exact_mod_cast h) (by norm_num)
  show (detectScamCore text ai).isScam = _
  cases ai with
  | none =>
    by_cases hO : (detectOtpFraud text).riskIncrement > 0
    · have hO' := hOiff hO
      rcases le_or_lt scamThreshold ((calculateRuleBasedScore text).1) with h | h
      · have h3 := min_one_add_ge_thr h hb0
        simp [detectScamCore, hO, hO', ge_iff_le, h, h3]
      · simp [detectScamCore, hO, hO', ge_iff_le, not_le.mpr h]
    · simp [detectScamCore, hO, ge_iff_le]
  | some a =>
    have hfc0 : (calculateRuleBasedScore text).1 > 2/5 →
        scamThreshold ≤ max (calculateRuleBasedScore text).1 a.confidence := fun hrule =>
      le_trans (le_of_lt hrule) (le_max_left _ _)
    by_cases hA : ((calculateRuleBasedScore text).1 > 2/5 ∧ ¬ a.isScam = true) <;>
      by_cases hO : (detectOtpFraud text).riskIncrement > 0
    · have hO' := hOiff hO
      have h3 := min_one_add_ge_thr (hfc0 hA.1) hb0
      simp [detectScamCore, hA, hA.2, hO, hO', ge_iff_le, h3]
    · have hfc := hfc0 hA.1
      simp [detectScamCore, hA, hA.2, hO, ge_iff_le, hfc]
    · have hO' := hOiff hO
      have hth1 : scamThreshold ≤ (1:ℚ) := by norm_num [scamThreshold]
      rcases le_or_lt scamThreshold (max (calculateRuleBasedScore text).1 a.confidence)
        with h | h
      · have h3 := min_one_add_ge_thr h hb0
        cases ha : a.isScam
        · have hrule : ¬ ((2:ℚ)/5 < (calculateRuleBasedScore text).1) :=
            fun hr => hA ⟨hr, by simp [ha]⟩
          simp [detectScamCore, hO, hO', ge_iff_le, h, h3, ha, hrule, hth1]
        · simp [detectScamCore, hO, hO', ge_iff_le, h, h3, ha, hth1]
      · cases ha : a.isScam
        · have hrule : ¬ ((2:ℚ)/5 < (calculateRuleBasedScore text).1) :=
            fun hr => hA ⟨hr, by simp [ha]⟩
          simp [detectScamCore, hO, hO', ge_iff_le, not_le.mpr h, ha, hrule, hth1]
        · simp [detectScamCore, hO, hO', ge_iff_le, not_le.mpr h, ha, hth1]
    · cases ha : a.isScam
      · have hrule : ¬ ((2:ℚ)/5 < (calculateRuleBasedScore text).1) :=
          fun hr => hA ⟨hr, by simp [ha]⟩
        simp [detectScamCore, hO, ge_iff_le, ha, hrule]
      · simp [detectScamCore, hO, ge_iff_le, ha]

/-! ## Claim C8 — the honeypot detection note -/

/-- C8: the `updateScamStatus` call mutates the session object before the
`!session.scamDetected && isSessionScam` guard reads it, so the "Scam
detected …" agent note is never recorded — on any session and any turn
confidence, `agentNotes` is unchanged; at the concrete first-crossing input
(fresh session, turn confidence 0.5 ≥ threshold 0.4) the session is marked
detected with `scamConfidence` the average, yet no note is added. -/
theorem honeypot_detection_note_never_recorded :
    (∀ (s : HSession) (confidence : ℚ) (scamResultType : String),
      (honeypotScamStatusUpdate s confidence scamResultType).agentNotes =
        s.agentNotes) ∧
    ((honeypotScamStatusUpdate (freshHSession "session-1" 0) (1/2) "otp scam").scamDetected
        = true ∧
     (honeypotScamStatusUpdate (freshHSession "session-1" 0) (1/2) "otp scam").scamConfidence
        = 1/2 ∧
     (honeypotScamStatusUpdate (freshHSession "session-1" 0) (1/2) "otp scam").agentNotes
        = []) := by
  constructor
  · intro s conf st
    unfold honeypotScamStatusUpdate
    cases hd : s.scamDetected <;>
      simp [hd, apply_ite (f := HSession.agentNotes),
        apply_ite (f := HSession.scamDetected), not_le]
  · refine ⟨by with_unfolding_all decide, by with_unfolding_all decide,
      by with_unfolding_all decide⟩

/-! ## Claim C5 — phone numbers versus bank-account slices -/

/-- C5 failing input: on `"account 9876543210"` the extractor returns the
10-digit bank account `9876543210` and also emits the very same digits as
the phone number `+919876543210` — a contiguous (here: full) digit slice of
an extracted bank account is classified as a phone number. -/
theorem extractTransaction_phone_is_bank_slice :
    (extractTransactionFromMessage "account 9876543210" none).toOption.map
        (fun m => (m.phoneNumbers, m.bankAccounts)) =
      some (["+919876543210"], ["9876543210"]) ∧
    ("+919876543210" : String) = "+91" ++ "9876543210" ∧
    isInfixB "9876543210".toList "9876543210".toList = true := by
  refine ⟨by with_unfolding_all decide, by decide, by decide⟩

/-! ## Claim C9 — rule-only extraction defaults -/

/-- C9: with no AI extraction result, `extractTransactionFromMessage` on any
text that survives the emptiness check returns `senderUPI = none`,
`receiverUPI` the first rule-extracted UPI id (or `none`),
`transactionType = "UNKNOWN"`, `source = "UNKNOWN"` and
`aiExtracted = false`. -/
theorem extract_rule_only_defaults (messageText : String)
    (h : jsTrim messageText ≠ "") :
    ∃ m, extractTransactionFromMessage messageText none = .ok m ∧
      m.senderUPI = none ∧
      m.receiverUPI = (extractUpiIds (jsTrim messageText)).head? ∧
      m.transactionType = "UNKNOWN" ∧ m.source = "UNKNOWN" ∧
      m.aiExtracted = false := by
  unfold extractTransactionFromMessage
  rw [if_neg h]
  exact ⟨_, rfl, rfl, rfl, rfl, rfl, rfl⟩

theorem extract_rule_only_defaults_witness :
    ∃ m, extractTransactionFromMessage "pay 500 to friend@ybl" none = .ok m ∧
      m.senderUPI = none ∧
      m.receiverUPI = (extractUpiIds (jsTrim "pay 500 to friend@ybl")).head? ∧
      m.transactionType = "UNKNOWN" ∧ m.source = "UNKNOWN" ∧
      m.aiExtracted = false :=
  extract_rule_only_defaults "pay 500 to friend@ybl" (by with_unfolding_all decide)

/-! ## Claim C6 — the victim-reply policy block -/

/-- C6: on a well-formed request, `handleVictimReply` answers 403 exactly
when the stored session has `lastRisk.riskScore ≥ 70` and is diverted; a 403
leaves the session unchanged, and otherwise the handler answers 200 having
appended exactly one victim message with `deliveredToVictim = true`; an
unknown session is a 404, never the policy block. -/
theorem handleVictimReply_blocked_iff (sessionId rawText : String)
    (s : ChatSession) (h1 : sessionId ≠ "") (h2 : jsTrim rawText ≠ "") :
    (((handleVictimReply sessionId rawText (some s)).status = 403) ↔
      ((match s.lastRisk with | some r => r.riskScore | none => 0) ≥ 70 ∧
        s.divertedToHoneypot = true)) ∧
    ((handleVictimReply sessionId rawText (some s)).status = 403 →
      (handleVictimReply sessionId rawText (some s)).stored = some s) ∧
    ((handleVictimReply sessionId rawText (some s)).status ≠ 403 →
      (handleVictimReply sessionId rawText (some s)).status = 200 ∧
      (handleVictimReply sessionId rawText (some s)).stored =
        some { s with messages := s.messages ++
          [⟨"victim", sTake (jsTrim rawText) MAX_VICTIM_TEXT_LENGTH, true⟩] }) ∧
    (handleVictimReply sessionId rawText none).status = 404 := by
  have hcond : ¬ (sessionId = "" ∨ jsTrim rawText = "") := by
    intro hor
    rcases hor with hh | hh
    · exact h1 hh
    · exact h2 hh
  unfold handleVictimReply
  by_cases hb :
      ((match s.lastRisk with | some r => r.riskScore | none => 0) ≥ 70 ∧
        s.divertedToHoneypot = true)
  · simp [hcond, hb]
  · simp [hcond, hb]

theorem handleVictimReply_blocked_iff_witness :
    (((handleVictimReply "s1" "hello" (some (newChatSession "s1" "sc1" none))).status = 403) ↔
      ((match (newChatSession "s1" "sc1" none).lastRisk with
        | some r => r.riskScore | none => 0) ≥ 70 ∧
        (newChatSession "s1" "sc1" none).divertedToHoneypot = true)) ∧
    ((handleVictimReply "s1" "hello" (some (newChatSession "s1" "sc1" none))).status = 403 →
      (handleVictimReply "s1" "hello" (some (newChatSession "s1" "sc1" none))).stored =
        some (newChatSession "s1" "sc1" none)) ∧
    ((handleVictimReply "s1" "hello" (some (newChatSession "s1" "sc1" none))).status ≠ 403 →
      (handleVictimReply "s1" "hello" (some (newChatSession "s1" "sc1" none))).status = 200 ∧
      (handleVictimReply "s1" "hello" (some (newChatSession "s1" "sc1" none))).stored =
        some { newChatSession "s1" "sc1" none with
          messages := (newChatSession "s1" "sc1" none).messages ++
            [⟨"victim", sTake (jsTrim "hello") MAX_VICTIM_TEXT_LENGTH, true⟩] }) ∧
    (handleVictimReply "s1" "hello" none).status = 404 :=
  handleVictimReply_blocked_iff "s1" "hello" (newChatSession "s1" "sc1" none)
    (by decide) (by with_unfolding_all decide)

/-! ## Claim C2 — monotone session flags -/

/-- One turn of `handleChatMessage` never clears `divertedToHoneypot` or
`isScamConfirmed`: the diverted branch sets both, the high-risk live branch
sets both, and the `divertedToHoneypot = false` assignment of the
medium-risk branch is only reachable with the flag already false (the
diverted branch would have been taken otherwise). -/
theorem handleChatMessage_flags_mono (s : ChatSession) (t : TurnInput) :
    (s.divertedToHoneypot = true →
      (handleChatMessage s t).session.divertedToHoneypot = true) ∧
    (s.isScamConfirmed = true →
      (handleChatMessage s t).session.isScamConfirmed = true) := by
  constructor
  · intro hdiv
    have hb : (t.blacklisted || s.divertedToHoneypot) = true := by simp [hdiv]
    unfold handleChatMessage
    simp only [hb, if_true]
    split_ifs <;> rfl
  · intro hconf
    unfold handleChatMessage
    by_cases hb : (t.blacklisted || s.divertedToHoneypot) = true
    · simp only [hb, if_true]
      split_ifs <;> rfl
    · simp only [hb, if_false]
      split_ifs <;> first | rfl | exact hconf

/-- C2: over any sequence of chat-send turns, `divertedToHoneypot` and
`isScamConfirmed` are monotone — once true they remain true after every
later turn of the session. -/
theorem chat_flags_monotone (turns : List TurnInput) (s : ChatSession) :
    (s.divertedToHoneypot = true →
      (runChatTurns s turns).divertedToHoneypot = true) ∧
    (s.isScamConfirmed = true →
      (runChatTurns s turns).isScamConfirmed = true) := by
  induction turns generalizing s with
  | nil => exact ⟨id, id⟩
  | cons t ts ih =>
    refine ⟨fun h => ?_, fun h => ?_⟩
    · exact (ih ((handleChatMessage s t).session)).1
        ((handleChatMessage_flags_mono s t).1 h)
    · exact (ih ((handleChatMessage s t).session)).2
        ((handleChatMessage_flags_mono s t).2 h)

theorem chat_flags_monotone_witness :
    ((⟨"s", "x", none, [], ⟨[], [], [], []⟩, none, true, true⟩ :
        ChatSession).divertedToHoneypot = true ∧
      (runChatTurns ⟨"s", "x", none, [], ⟨[], [], [], []⟩, none, true, true⟩
        [⟨"hi", false, none, none, none, none, 12, "ok"⟩]).divertedToHoneypot = true) ∧
    ((⟨"s", "x", none, [], ⟨[], [], [], []⟩, none, true, true⟩ :
        ChatSession).isScamConfirmed = true ∧
      (runChatTurns ⟨"s", "x", none, [], ⟨[], [], [], []⟩, none, true, true⟩
        [⟨"hi", false, none, none, none, none, 12, "ok"⟩]).isScamConfirmed = true) :=
  ⟨⟨rfl, (chat_flags_monotone _ _).1 rfl⟩, ⟨rfl, (chat_flags_monotone _ _).2 rfl⟩⟩

/-! ## Claim C4 — validate-transaction and the missing-ML fusion -/

/-- C4 counterexample: with the ML client returning `null`, the
validate-transaction route answers the unfused max-merged score (here 50),
not the claimed advanced fusion with `mlProbability = 0` (which would be
`round(0.6·50) = 30`). -/
theorem validateTransaction_unfused_counterexample :
    (validateTransaction (some 60000) (some "123456789@ybl") none true false 12
        none none none).toOption.map (·.riskScore) = some 50 ∧
    (applyAdvancedFusion 50 0 false).score = 30 ∧ (50 : ℚ) ≠ 30 := by
  refine ⟨by with_unfolding_all decide, by with_unfolding_all decide, by norm_num⟩

/-- C4 amended: for a non-blacklisted receiver the returned `riskScore` is
the Mode-B advanced fusion of the max-merged rule/text score with the ML
probability only when the ML client returned a result; when the ML result is
missing the route skips the fusion step and returns the unfused merged
score. -/
theorem validateTransaction_fusion_cases
    (amount : Option ℚ) (receiverUPI : Option String) (description : Option String)
    (newPayee : Bool) (hour : ℕ) (aiTxn : Option AiTxnVerdict)
    (aiScam : Option AiVerdict)
    (hr : jsTrim (receiverUPI.getD "") ≠ "") :
    ((validateTransaction amount receiverUPI description newPayee false hour
        aiTxn aiScam none).toOption.map (·.riskScore) =
      some (vtMergedScore amount (receiverUPI.getD "") description newPayee hour
        aiTxn aiScam)) ∧
    (∀ m : MlResult,
      (validateTransaction amount receiverUPI description newPayee false hour
        aiTxn aiScam (some m)).toOption.map (·.riskScore) =
      some ((applyAdvancedFusion
        (vtMergedScore amount (receiverUPI.getD "") description newPayee hour
          aiTxn aiScam) m.probability false).score)) := by
  constructor
  · unfold validateTransaction
    rw [if_neg hr]
    rfl
  · intro m
    unfold validateTransaction
    rw [if_neg hr]
    rfl

theorem validateTransaction_fusion_cases_witness :
    ((validateTransaction (some 500) (some "friend@oksbi") (some "Dinner share")
        false false 12 none none none).toOption.map (·.riskScore) =
      some (vtMergedScore (some 500) ((some "friend@oksbi").getD "")
        (some "Dinner share") false 12 none none)) ∧
    (∀ m : MlResult,
      (validateTransaction (some 500) (some "friend@oksbi") (some "Dinner share")
        false false 12 none none (some m)).toOption.map (·.riskScore) =
      some ((applyAdvancedFusion
        (vtMergedScore (some 500) ((some "friend@oksbi").getD "")
          (some "Dinner share") false 12 none none) m.probability false).score)) :=
  validateTransaction_fusion_cases (some 500) (some "friend@oksbi")
    (some "Dinner share") false 12 none none (by with_unfolding_all decide)

/-! ## Claim C1 — risk scores and band tables across the pipeline -/

theorem scamFoldScore_nonneg (lower : String)
    (l : List (String × List String × ℚ)) :
    ∀ (acc : ℚ × List String), (∀ x ∈ l, 0 ≤ x.2.2) → 0 ≤ acc.1 →
      0 ≤ (l.foldl
        (fun (acc : ℚ × List String) cat =>
          if cat.2.1.any (fun p => strIncludes lower p) then
            (acc.1 + cat.2.2, acc.2 ++ [cat.1])
          else acc) acc).1 := by
  induction l with
  | nil => intro acc _ h; exact h
  | cons x xs ih =>
    intro acc hw h
    simp only [List.foldl_cons]
    refine ih _ (fun y hy => hw y (List.mem_cons_of_mem _ hy)) ?_
    by_cases hx : x.2.1.any (fun p => strIncludes lower p)
    · simpa [hx] using add_nonneg h (hw x (List.mem_cons_self _ _))
    · simpa [hx] using h

theorem calculateRuleBasedScore_bounds (text : String) :
    0 ≤ (calculateRuleBasedScore text).1 ∧ (calculateRuleBasedScore text).1 ≤ 1 := by
  have hw : ∀ x ∈ scamIndicators, (0:ℚ) ≤ x.2.2 := by
    intro x hx
    fin_cases hx <;> norm_num
  constructor
  · exact le_min (scamFoldScore_nonneg (lowerS text) scamIndicators (0, []) hw le_rfl)
      zero_le_one
  · exact min_le_right _ _

theorem round2_bounds {x : ℚ} (h0 : 0 ≤ x) (h1 : x ≤ 1) :
    0 ≤ round2 x ∧ round2 x ≤ 1 := by
  have hlo : (0:ℤ) ≤ jsRound (x * 100) :=
    jsRound_nonneg (mul_nonneg h0 (by norm_num))
  have hhi : jsRound (x * 100) ≤ (100:ℕ) :=
    jsRound_le_of_le (by push_cast; linarith)
  unfold round2
  constructor
  · have : (0:ℚ) ≤ ((jsRound (x * 100) : ℤ) : ℚ) := by exact_mod_cast hlo
    positivity
  · rw [div_le_one (by norm_num)]
    exact_mod_cast hhi

theorem detectScamCore_conf_bounds (text : String) (ai : Option AiVerdict)
    (hai : ∀ a ∈ ai, 0 ≤ a.confidence ∧ a.confidence ≤ 1) :
    0 ≤ (detectScamCore text ai).finalConfidence ∧
      (detectScamCore text ai).finalConfidence ≤ 1 := by
  obtain ⟨hr0, hr1⟩ := calculateRuleBasedScore_bounds text
  have hb0 : (0 : ℚ) ≤ ((detectOtpFraud text).riskIncrement : ℚ) / 100 := by positivity
  cases ai with
  | none =>
    by_cases hO : (detectOtpFraud text).riskIncrement > 0
    · have hO' : ((detectOtpFraud text).riskIncrement : ℚ) / 100 > 0 :=
        div_pos (by exact_mod_cast hO) (by norm_num)
      constructor <;> simp [detectScamCore, hO, hO', add_nonneg hr0 hb0]
    · constructor <;> simp [detectScamCore, hO, hr0, hr1]
  | some a =>
    obtain ⟨ha0, ha1⟩ := hai a rfl
    have hm0 : (0:ℚ) ≤ max (calculateRuleBasedScore text).1 a.confidence :=
      le_trans hr0 (le_max_left _ _)
    have hm1 : max (calculateRuleBasedScore text).1 a.confidence ≤ 1 := max_le hr1 ha1
    by_cases hA : ((calculateRuleBasedScore text).1 > 2/5 ∧ ¬ a.isScam = true) <;>
      by_cases hO : (detectOtpFraud text).riskIncrement > 0
    · have hO' : ((detectOtpFraud text).riskIncrement : ℚ) / 100 > 0 :=
        div_pos (by exact_mod_cast hO) (by norm_num)
      constructor <;>
        simp [detectScamCore, hA, hO, hO',
          apply_ite (f := ScamCore.finalConfidence), add_nonneg hm0 hb0]
    · constructor <;>
        simp [detectScamCore, hA, hO,
          apply_ite (f := ScamCore.finalConfidence), hm0, hm1]
    · have hO' : ((detectOtpFraud text).riskIncrement : ℚ) / 100 > 0 :=
        div_pos (by exact_mod_cast hO) (by norm_num)
      constructor <;>
        simp [detectScamCore, hA, hO, hO',
          apply_ite (f := ScamCore.finalConfidence), add_nonneg hm0 hb0]
    · constructor <;>
        simp [detectScamCore, hA, hO,
          apply_ite (f := ScamCore.finalConfidence), hm0, hm1]

theorem detectScam_confidence_bounds (text : String) (ai : Option AiVerdict)
    (hai : ∀ a ∈ ai, 0 ≤ a.confidence ∧ a.confidence ≤ 1) :
    0 ≤ (detectScam text ai).confidence ∧ (detectScam text ai).confidence ≤ 1 := by
  obtain ⟨h0, h1⟩ := detectScamCore_conf_bounds text ai hai
  exact round2_bounds h0 h1

theorem analyzeTransaction_riskScore_bounds (txn : Txn) (ai : Option AiTxnVerdict) :
    0 ≤ (analyzeTransaction txn ai).riskScore ∧
      (analyzeTransaction txn ai).riskScore ≤ 100 := by
  have hpre : ∀ q : ℚ, 0 ≤ q →
      (0 ≤ ((min (jsRound q) 100 : ℤ) : ℚ) ∧ ((min (jsRound q) 100 : ℤ) : ℚ) ≤ 100) := by
    intro q hq
    constructor
    · exact_mod_cast le_min (jsRound_nonneg hq) (by norm_num : (0:ℤ) ≤ 100)
    · exact_mod_cast min_le_right (jsRound q) 100
  cases ai with
  | none => exact hpre _ (Nat.cast_nonneg _)
  | some a => exact hpre _ (le_trans (Nat.cast_nonneg _) (le_max_left _ _))

theorem getRiskLevel_level (q : ℚ) : (getRiskLevel q).level = analyzerBandLevel q := by
  unfold getRiskLevel analyzerBandLevel
  split_ifs <;> rfl

theorem scoreToLevel_level (q : ℚ) : (scoreToLevel q).level = strictBandLevel q := by
  unfold scoreToLevel strictBandLevel
  split_ifs <;> rfl

theorem analyzeTransaction_riskLevel (txn : Txn) (ai : Option AiTxnVerdict) :
    (analyzeTransaction txn ai).riskLevel =
      analyzerBandLevel (analyzeTransaction txn ai).riskScore := by
  cases ai <;> exact getRiskLevel_level _

theorem analyzeUpiQr_verdict (qrs : String) (hour : ℕ) (qrAi : Option AiTxnVerdict)
    (q : QrOk) (hok : analyzeUpiQr qrs hour qrAi = .ok q) :
    (0 ≤ q.analysis.riskScore ∧ q.analysis.riskScore ≤ 100) ∧
    q.analysis.riskLevel = strictBandLevel q.analysis.riskScore := by
  unfold analyzeUpiQr at hok
  cases hp : parseUpiPaymentUri qrs with
  | error e =>
    rw [hp] at hok
    exact absurd hok (by simp)
  | ok parsed =>
    rw [hp] at hok
    injection hok with h
    subst h
    refine ⟨⟨?_, ?_⟩, ?_⟩
    · exact le_trans (Nat.cast_nonneg _) (le_max_left _ _)
    · refine max_le ?_ (analyzeTransaction_riskScore_bounds _ _).2
      have hle : (ruleBasedQrRisk parsed).1 ≤ 100 := min_le_right _ _
      exact_mod_cast hle
    · exact scoreToLevel_level _

theorem bandTuple_fst (q : ℚ) :
    ((if q ≥ 85 then ((.CRITICAL : RiskLevel), "#dc2626", "🚨")
      else if q ≥ 70 then (.HIGH, "#ea580c", "⚠️")
      else if q ≥ 40 then (.MEDIUM, "#d97706", "🔶")
      else (.LOW, "#16a34a", "✅")) : RiskLevel × String × String).1 =
      bandLevel q := by
  unfold bandLevel
  split_ifs <;> rfl

theorem mergeRiskResults_band (sa : Option ScamResult) (ta : Option Analysis)
    (qa : Option (Except String QrOk)) :
    (mergeRiskResults sa ta qa).riskLevel =
      bandLevel (mergeRiskResults sa ta qa).riskScore := by
  unfold mergeRiskResults
  cases hl : mergeCandidates sa ta qa with
  | nil => norm_num [bandLevel]
  | cons c cs => exact bandTuple_fst _

theorem mergeRiskResults_pipeline_bounds (sa : ScamResult) (ta : Analysis)
    (qa : Option (Except String QrOk))
    (hsa : 0 ≤ sa.confidence ∧ sa.confidence ≤ 1)
    (hta : 0 ≤ ta.riskScore ∧ ta.riskScore ≤ 100)
    (hqa : ∀ q, qa = some (.ok q) →
      0 ≤ q.analysis.riskScore ∧ q.analysis.riskScore ≤ 100) :
    0 ≤ (mergeRiskResults (some sa) (some ta) qa).riskScore ∧
      (mergeRiskResults (some sa) (some ta) qa).riskScore ≤ 100 := by
  have hc1 : (0:ℚ) ≤ ((jsRound (jsOrQ sa.confidence 0 * 100) : ℤ) : ℚ) ∧
      ((jsRound (jsOrQ sa.confidence 0 * 100) : ℤ) : ℚ) ≤ 100 := by
    rw [jsOrQ_zero]
    constructor
    · exact_mod_cast jsRound_nonneg (mul_nonneg hsa.1 (by norm_num))
    · exact_mod_cast jsRound_le_of_le
        (by push_cast; linarith [hsa.2] : sa.confidence * 100 ≤ ((100:ℕ) : ℚ))
  unfold mergeRiskResults
  rcases qa with - | (e | q)
  · rw [show mergeCandidates (some sa) (some ta) none =
      [((jsRound (jsOrQ sa.confidence 0 * 100) : ℤ) : ℚ), ta.riskScore] from rfl]
    simp only [List.foldl_cons, List.foldl_nil]
    exact ⟨le_max_of_le_left hc1.1, max_le hc1.2 hta.2⟩
  · rw [show mergeCandidates (some sa) (some ta) (some (.error e)) =
      [((jsRound (jsOrQ sa.confidence 0 * 100) : ℤ) : ℚ), ta.riskScore] from rfl]
    simp only [List.foldl_cons, List.foldl_nil]
    exact ⟨le_max_of_le_left hc1.1, max_le hc1.2 hta.2⟩
  · have hq := hqa q rfl
    rw [show mergeCandidates (some sa) (some ta) (some (.ok q)) =
      [((jsRound (jsOrQ sa.confidence 0 * 100) : ℤ) : ℚ), ta.riskScore,
        q.analysis.riskScore] from rfl]
    simp only [List.foldl_cons, List.foldl_nil]
    exact ⟨le_max_of_le_left (le_max_of_le_left hc1.1),
      max_le (max_le hc1.2 hta.2) hq.2⟩

/-- C1 counterexample: `analyzeTransaction` on a concrete transaction (rule
score exactly 50) reports `riskLevel = HIGH` although the §4.8 band table
puts a score of 50 in MEDIUM — the analyzer's levels come from the 75/50/25
bands, not from the claimed 85/70/40 table. -/
theorem analyzeTransaction_band_counterexample :
    (analyzeTransaction
        ⟨"unknown", "123456789@ybl", 60000, "P2P", "", true, "SMS", false, 12⟩
        none).riskScore = 50 ∧
    (analyzeTransaction
        ⟨"unknown", "123456789@ybl", 60000, "P2P", "", true, "SMS", false, 12⟩
        none).riskLevel = RiskLevel.HIGH ∧
    bandLevel 50 = RiskLevel.MEDIUM ∧ RiskLevel.HIGH ≠ RiskLevel.MEDIUM := by
  refine ⟨by with_unfolding_all decide, by with_unfolding_all decide,
    by with_unfolding_all decide, by decide⟩

/-- C1 amended: every pipeline verdict has `riskScore ∈ [0,100]` (for the
chat fusion, provided the optional LLM scam verdict keeps its confidence in
`[0,1]`), and each stage derives `riskLevel` from its own `riskScore` — the
chat fusion `mergeRiskResults` by the §4.8 band table (85/70/40,
non-strict), but `analyzeTransaction` by the 75/50/25 bands and
`analyzeUpiQr` by the 85/70/40 thresholds with strict comparisons (a score
of exactly 85, 70 or 40 falls one band lower there). -/
theorem pipeline_riskLevel_bands (text : String) (aiScam : Option AiVerdict)
    (txn : Txn) (aiTxn : Option AiTxnVerdict) (qrs : String) (hour : ℕ)
    (qrAi : Option AiTxnVerdict) (b : Bool)
    (hai : ∀ a ∈ aiScam, 0 ≤ a.confidence ∧ a.confidence ≤ 1) :
    ((0 ≤ (analyzeTransaction txn aiTxn).riskScore ∧
        (analyzeTransaction txn aiTxn).riskScore ≤ 100) ∧
      (analyzeTransaction txn aiTxn).riskLevel =
        analyzerBandLevel (analyzeTransaction txn aiTxn).riskScore) ∧
    (∀ q, analyzeUpiQr qrs hour qrAi = .ok q →
      (0 ≤ q.analysis.riskScore ∧ q.analysis.riskScore ≤ 100) ∧
      q.analysis.riskLevel = strictBandLevel q.analysis.riskScore) ∧
    ((0 ≤ (mergeRiskResults (some (detectScam text aiScam))
          (some (analyzeTransaction txn aiTxn))
          (if b then some (analyzeUpiQr qrs hour qrAi) else none)).riskScore ∧
        (mergeRiskResults (some (detectScam text aiScam))
          (some (analyzeTransaction txn aiTxn))
          (if b then some (analyzeUpiQr qrs hour qrAi) else none)).riskScore ≤ 100) ∧
      (mergeRiskResults (some (detectScam text aiScam))
          (some (analyzeTransaction txn aiTxn))
          (if b then some (analyzeUpiQr qrs hour qrAi) else none)).riskLevel =
        bandLevel (mergeRiskResults (some (detectScam text aiScam))
          (some (analyzeTransaction txn aiTxn))
          (if b then some (analyzeUpiQr qrs hour qrAi) else none)).riskScore) := by
  refine ⟨⟨analyzeTransaction_riskScore_bounds txn aiTxn,
    analyzeTransaction_riskLevel txn aiTxn⟩,
    fun q hq => analyzeUpiQr_verdict qrs hour qrAi q hq, ?_, ?_⟩
  · refine mergeRiskResults_pipeline_bounds _ _ _
      (detectScam_confidence_bounds text aiScam hai)
      (analyzeTransaction_riskScore_bounds txn aiTxn) ?_
    intro q hq
    cases b with
    | false => simp at hq
    | true =>
      simp only [if_true] at hq
      injection hq with hq
      exact (analyzeUpiQr_verdict qrs hour qrAi q hq).1
  · exact mergeRiskResults_band _ _ _

theorem pipeline_riskLevel_bands_witness :
    ((0 ≤ (analyzeTransaction ⟨"unknown", "unknown", 1, "P2P", "hi", true, "SMS",
          false, 12⟩ none).riskScore ∧
        (analyzeTransaction ⟨"unknown", "unknown", 1, "P2P", "hi", true, "SMS",
          false, 12⟩ none).riskScore ≤ 100) ∧
      (analyzeTransaction ⟨"unknown", "unknown", 1, "P2P", "hi", true, "SMS",
          false, 12⟩ none).riskLevel =
        analyzerBandLevel (analyzeTransaction ⟨"unknown", "unknown", 1, "P2P",
          "hi", true, "SMS", false, 12⟩ none).riskScore) ∧
    (∀ q, analyzeUpiQr "upi://pay?pa=a@ybl&pn=Shop&am=20" 12 none = .ok q →
      (0 ≤ q.analysis.riskScore ∧ q.analysis.riskScore ≤ 100) ∧
      q.analysis.riskLevel = strictBandLevel q.analysis.riskScore) ∧
    ((0 ≤ (mergeRiskResults (some (detectScam "hi" none))
          (some (analyzeTransaction ⟨"unknown", "unknown", 1, "P2P", "hi", true,
            "SMS", false, 12⟩ none))
          (if false then some (analyzeUpiQr "upi://pay?pa=a@ybl&pn=Shop&am=20" 12 none)
            else none)).riskScore ∧
        (mergeRiskResults (some (detectScam "hi" none))
          (some (analyzeTransaction ⟨"unknown", "unknown", 1, "P2P", "hi", true,
            "SMS", false, 12⟩ none))
          (if false then some (analyzeUpiQr "upi://pay?pa=a@ybl&pn=Shop&am=20" 12 none)
            else none)).riskScore ≤ 100) ∧
      (mergeRiskResults (some (detectScam "hi" none))
          (some (analyzeTransaction ⟨"unknown", "unknown", 1, "P2P", "hi", true,
            "SMS", false, 12⟩ none))
          (if false then some (analyzeUpiQr "upi://pay?pa=a@ybl&pn=Shop&am=20" 12 none)
            else none)).riskLevel =
        bandLevel (mergeRiskResults (some (detectScam "hi" none))
          (some (analyzeTransaction ⟨"unknown", "unknown", 1, "P2P", "hi", true,
            "SMS", false, 12⟩ none))
          (if false then some (analyzeUpiQr "upi://pay?pa=a@ybl&pn=Shop&am=20" 12 none)
            else none)).riskScore) :=
  pipeline_riskLevel_bands "hi" none
    ⟨"unknown", "unknown", 1, "P2P", "hi", true, "SMS", false, 12⟩ none
    "upi://pay?pa=a@ybl&pn=Shop&am=20" 12 none false (by simp)

/-! ## Claim C10 — sessionManager reads create, refresh and protect sessions -/

theorem beq_comm_false (a b : String) (h : (a == b) = false) : (b == a) = false := by
  have hne : ¬ a = b := by simpa using h
  simpa using fun e => hne e.symm

theorem lookup_replace (st : HStore) (id : String) (s : HSession)
    (h : st.any (fun p => p.1 == id) = true) :
    List.lookup id (st.map (fun p => if p.1 == id then (id, s) else p)) = some s := by
  induction st with
  | nil => simp at h
  | cons p st ih =>
    simp only [List.map_cons]
    cases hbeq : (p.1 == id) with
    | true =>
      simp [List.lookup]
    | false =>
      rw [if_neg (by simp [hbeq])]
      have hne : (id == p.1) = false := beq_comm_false p.1 id hbeq
      have h' : st.any (fun p => p.1 == id) = true := by
        simp only [List.any_cons, hbeq, Bool.false_or] at h
        exact h
      simp only [List.lookup, hne]
      exact ih h'

theorem lookup_append_of_none (st l2 : HStore) (id : String)
    (h : List.lookup id st = none) :
    List.lookup id (st ++ l2) = List.lookup id l2 := by
  induction st with
  | nil => simp
  | cons p st ih =>
    cases hbeq : (id == p.1) with
    | true => simp [List.lookup, hbeq] at h
    | false =>
      simp only [List.cons_append]
      simp only [List.lookup, hbeq] at h ⊢
      exact ih h

theorem lookup_none_of_not_any (st : HStore) (id : String)
    (h : st.any (fun p => p.1 == id) = false) :
    List.lookup id st = none := by
  induction st with
  | nil => rfl
  | cons p st ih =>
    simp only [List.any_cons, Bool.or_eq_false_iff] at h
    obtain ⟨h1, h2⟩ := h
    have hne : (id == p.1) = false := beq_comm_false p.1 id h1
    simp [List.lookup, hne, ih h2]

theorem lookup_storeSet (st : HStore) (id : String) (s : HSession) :
    List.lookup id (storeSet st id s) = some s := by
  unfold storeSet
  cases hany : st.any (fun p => p.1 == id) with
  | true =>
    simp only [hany, if_true]
    exact lookup_replace st id s hany
  | false =>
    simp only [hany, Bool.false_eq_true, if_false]
    rw [lookup_append_of_none st _ id (lookup_none_of_not_any st id hany)]
    simp [List.lookup]

theorem getSession_lastActivity (store : HStore) (id : String) (t : ℕ) :
    (getSession store id t).1.lastActivity = t := rfl

theorem getSession_lookup (store : HStore) (id : String) (t : ℕ) :
    List.lookup id (getSession store id t).2 = some (getSession store id t).1 :=
  lookup_storeSet _ _ _

theorem getSession_fresh (store : HStore) (id : String) (t : ℕ)
    (h : List.lookup id store = none) :
    (getSession store id t).1 = freshHSession id t := by
  have h2 : List.lookup id (store ++ [(id, freshHSession id t)]) =
      some (freshHSession id t) := by
    rw [lookup_append_of_none store _ id h]
    simp [List.lookup]
  simp only [getSession, h, Option.isSome_none, Bool.false_eq_true, if_false, h2,
    Option.getD_some]
  rfl

theorem lookup_cleanup (store : HStore) (id : String) (now : ℕ) (s : HSession)
    (hs : List.lookup id store = some s)
    (h : now - s.lastActivity ≤ sessionTimeoutMs) :
    List.lookup id (cleanupExpiredSessions store now) = some s := by
  unfold cleanupExpiredSessions
  induction store with
  | nil => simp [List.lookup] at hs
  | cons p st ih =>
    cases hbeq : (id == p.1) with
    | true =>
      have hps : p.2 = s := by
        simpa [List.lookup, hbeq] using hs
      have hkeep : ¬ (now - p.2.lastActivity > sessionTimeoutMs) := by
        rw [hps]; exact not_lt.mpr h
      simp [List.filter, hkeep, List.lookup, hbeq]
      exact hps
    | false =>
      have hs' : List.lookup id st = some s := by
        simpa [List.lookup, hbeq] using hs
      by_cases hkeep : (now - p.2.lastActivity > sessionTimeoutMs)
      · simpa [List.filter, hkeep, List.lookup, hbeq] using ih hs'
      · simpa [List.filter, hkeep, List.lookup, hbeq] using ih hs'

theorem runEvents_never_evicts (es : List HpEvent) :
    ∀ (store : HStore) (id : String) (tLast : ℕ) (s : HSession),
      List.lookup id store = some s → s.lastActivity = tLast →
      goodTrace tLast es →
      ∃ s' : HSession, List.lookup id (runEvents store id es) = some s' := by
  induction es with
  | nil =>
    intro store id tLast s hs _ _
    exact ⟨s, hs⟩
  | cons e es ih =>
    intro store id tLast s hs hla hg
    cases e with
    | read t =>
      exact ih (getSession store id t).2 id t (getSession store id t).1
        (getSession_lookup store id t) (getSession_lastActivity store id t) hg
    | sweep t =>
      have hg2 : t - tLast ≤ sessionTimeoutMs ∧ goodTrace tLast es := hg
      have hs' : List.lookup id (cleanupExpiredSessions store t) = some s :=
        lookup_cleanup store id t s hs (by rw [hla]; exact hg2.1)
      exact ih (cleanupExpiredSessions store t) id tLast s hs' hla hg2.2

/-- C10: every sessionManager operation, including the read-only
`GET /api/honeypot/session/:sessionId` debug view, routes through
`getSession`, which creates and stores a fresh session when the id is
unknown and stamps `lastActivity` with the current time; after every
operation the session is present in the returned store with
`lastActivity = t`; a sweep never evicts a session whose `lastActivity` is
at most `sessionTimeoutMs` (30 minutes) in the past; and along any trace of
reads and sweeps in which every sweep falls within the timeout window of
the latest read, the session is never evicted. -/
theorem sessionManager_reads_create_and_protect :
    (∀ (store : HStore) (id : String) (t : ℕ),
      List.lookup id store = none →
      (getSession store id t).1 = freshHSession id t ∧
      List.lookup id (getSession store id t).2 = some (freshHSession id t)) ∧
    (∀ (store : HStore) (id : String) (t : ℕ),
      (getSession store id t).1.lastActivity = t ∧
      List.lookup id (getSession store id t).2 = some (getSession store id t).1) ∧
    (∀ (store : HStore) (id : String) (t : ℕ),
      (getSessionDebugView store id t).2 = (getSession store id t).2 ∧
      (getSessionDebugView store id t).1.lastActivity = t) ∧
    (∀ (store : HStore) (id : String) (t : ℕ) (m : HMessage),
      List.lookup id (addMessage store id t m).2 = some (addMessage store id t m).1 ∧
      (addMessage store id t m).1.lastActivity = t) ∧
    (∀ (store : HStore) (id : String) (t : ℕ) (b : Bool) (c : ℚ),
      List.lookup id (updateScamStatus store id t b c).2 =
        some (updateScamStatus store id t b c).1 ∧
      (updateScamStatus store id t b c).1.lastActivity = t) ∧
    (∀ (store : HStore) (id : String) (t : ℕ) (intel : Intelligence),
      List.lookup id (addIntelligence store id t intel).2 =
        some (addIntelligence store id t intel).1 ∧
      (addIntelligence store id t intel).1.lastActivity = t) ∧
    (∀ (store : HStore) (id : String) (t : ℕ) (note : String),
      List.lookup id (addAgentNote store id t note).2 =
        some (addAgentNote store id t note).1 ∧
      (addAgentNote store id t note).1.lastActivity = t) ∧
    (∀ (store : HStore) (id : String) (t : ℕ),
      List.lookup id (markCallbackSent store id t).2 =
        some (markCallbackSent store id t).1 ∧
      (markCallbackSent store id t).1.lastActivity = t) ∧
    (∀ (store : HStore) (id : String) (t : ℕ),
      (shouldSendCallback store id t).2 = (getSession store id t).2 ∧
      (getSessionSummary store id t).2 = (getSession store id t).2) ∧
    (∀ (store : HStore) (id : String) (now : ℕ) (s : HSession),
      List.lookup id store = some s →
      now - s.lastActivity ≤ sessionTimeoutMs →
      List.lookup id (cleanupExpiredSessions store now) = some s) ∧
    (∀ (es : List HpEvent) (store : HStore) (id : String) (s : HSession),
      List.lookup id store = some s → goodTrace s.lastActivity es →
      ∃ s' : HSession, List.lookup id (runEvents store id es) = some s') := by
  refine ⟨?_, ?_, ?_, ?_, ?_, ?_, ?_, ?_, ?_, ?_, ?_⟩
  · intro store id t h
    refine ⟨getSession_fresh store id t h, ?_⟩
    rw [← getSession_fresh store id t h]
    exact getSession_lookup store id t
  · intro store id t
    exact ⟨rfl, getSession_lookup store id t⟩
  · intro store id t
    exact ⟨rfl, rfl⟩
  · intro store id t m
    exact ⟨lookup_storeSet _ _ _, rfl⟩
  · intro store id t b c
    exact ⟨lookup_storeSet _ _ _, rfl⟩
  · intro store id t intel
    exact ⟨lookup_storeSet _ _ _, rfl⟩
  · intro store id t note
    exact ⟨lookup_storeSet _ _ _, rfl⟩
  · intro store id t
    exact ⟨lookup_storeSet _ _ _, rfl⟩
  · intro store id t
    exact ⟨rfl, rfl⟩
  · intro store id now s hs h
    exact lookup_cleanup store id now s hs h
  · intro es store id s hs hg
    exact runEvents_never_evicts es store id s.lastActivity s hs rfl hg

/-- C10 witness: on the empty store, reading the unknown id creates the
fresh session; a sweep exactly at the timeout boundary keeps it; and the
trace sweep, read, sweep with each sweep inside the window keeps it. -/
theorem sessionManager_reads_create_and_protect_witness :
    List.lookup "scam-1" ([] : HStore) = none ∧
    (getSession ([] : HStore) "scam-1" 5).1 = freshHSession "scam-1" 5 ∧
    List.lookup "scam-1"
        (cleanupExpiredSessions (getSession ([] : HStore) "scam-1" 5).2
          (5 + sessionTimeoutMs)) = some ((getSession ([] : HStore) "scam-1" 5).1) ∧
    (∃ s' : HSession, List.lookup "scam-1"
        (runEvents (getSession ([] : HStore) "scam-1" 5).2 "scam-1"
          [HpEvent.sweep (5 + sessionTimeoutMs), HpEvent.read (5 + sessionTimeoutMs),
           HpEvent.sweep (5 + 2 * sessionTimeoutMs)]) = some s') := by
  have hnone : List.lookup "scam-1" ([] : HStore) = none := rfl
  have hmain := sessionManager_reads_create_and_protect
  have hla : ((getSession ([] : HStore) "scam-1" 5).1).lastActivity = 5 :=
    (hmain.2.1 [] "scam-1" 5).1
  refine ⟨hnone, (hmain.1 [] "scam-1" 5 hnone).1, ?_, ?_⟩
  · refine hmain.2.2.2.2.2.2.2.2.2.1 _ "scam-1" (5 + sessionTimeoutMs) _
      (hmain.2.1 [] "scam-1" 5).2 ?_
    rw [hla]
    omega
  · refine hmain.2.2.2.2.2.2.2.2.2.2 _ _ "scam-1" _
      (hmain.2.1 [] "scam-1" 5).2 ?_
    rw [hla]
    refine ⟨by omega, by omega, trivial⟩

end UpiFraud
